import Mathlib

/-!
Verification of the PaperTracer crawler (`papertracer.py` and collaborators)
against its natural-language specification.

The development is a shallow embedding of the Python sources:

* pure text helpers (`in`-substring tests, `str.lower`) are implemented over
  `List Char`, since the Python checks are plain substring containment;
* the HTML scraping performed by BeautifulSoup selectors and regexes is
  abstracted to its result: a fetched page is modelled by its rendered text,
  the presence of a challenge widget, an optional `<title>`, and the list of
  result divs, where each div carries the components `_parse_paper_info`
  extracts from it;
* the effectful crawler (`GoogleScholarCrawler`) becomes explicit state
  passing over `CrawlerState`; network, browser, human-intervention and
  random outcomes are supplied by a pluggable `Oracle` (a fake transport);
* the ghost fields `trace`, `sleeps`, `manualCalls` of `CrawlerState` record
  the network requests issued, the delays slept and the number of
  `_handle_manual_captcha` invocations, so that temporal claims ("no second
  request", "never blocks on human input") become statements about them;
* the unbounded `while attempt < max_captcha_retries` retry loop is embedded
  with a fuel parameter; the entry point passes `2*max_captcha_retries + 1`,
  which strictly dominates the loop variant
  `2*(max_captcha_retries - attempt) + (1 if not browser_attempt else 0)`,
  so the fuel-exhaustion branch is unreachable from the entry point;
* the recursion of `_build_citation_subtree` is embedded with fuel
  `max_depth - depth`, which is exactly the quantity its `depth >= max_depth`
  guard counts down, so the fuel pattern and the source guard coincide.
-/

/-! ## Text helpers (Python `in` and `str.lower`) -/

/-- Whether `p` is an initial segment of `l` (helper for substring search). -/
def startsWithChars : List Char → List Char → Bool
  | [], _ => true
  | _ :: _, [] => false
  | a :: as, b :: bs => a == b && startsWithChars as bs

/-- Whether `pat` occurs contiguously inside `s` (Python `pat in s` on `str`). -/
def subChars (pat : List Char) : List Char → Bool
  | [] => pat.isEmpty
  | c :: rest => startsWithChars pat (c :: rest) || subChars pat rest

/-- Python `pat in s` for strings. -/
def strContains (s pat : String) : Bool := subChars pat.data s.data

/-- Python `s.lower()`, as a character list. -/
def lowerChars (s : String) : List Char := s.data.map Char.toLower

/-! ## Data model (`Paper`, `CitationNode` from `papertracer.py`) -/

/-- `Paper` dataclass (`papertracer.py` lines 40-49).  `citation_count` is a
Python `int`, embedded as `Int`. -/
structure Paper where
  title : String
  authors : String := ""
  year : String := ""
  citation_count : Int := 0
  url : String := ""
  cited_by_url : String := ""
  abstract : String := ""
  deriving DecidableEq, Repr

/-- `CitationNode` dataclass (`papertracer.py` lines 51-56): a rose tree of
`Paper`s with an explicit `depth`. -/
inductive CitationNode where
  | mk (paper : Paper) (children : List CitationNode) (depth : Nat)
  deriving Repr

def CitationNode.paper : CitationNode → Paper
  | .mk p _ _ => p

def CitationNode.children : CitationNode → List CitationNode
  | .mk _ c _ => c

def CitationNode.depth : CitationNode → Nat
  | .mk _ _ d => d

@[simp] theorem CitationNode.paper_mk (p : Paper) (cs : List CitationNode) (d : Nat) :
    (CitationNode.mk p cs d).paper = p := rfl

@[simp] theorem CitationNode.children_mk (p : Paper) (cs : List CitationNode) (d : Nat) :
    (CitationNode.mk p cs d).children = cs := rfl

@[simp] theorem CitationNode.depth_mk (p : Paper) (cs : List CitationNode) (d : Nat) :
    (CitationNode.mk p cs d).depth = d := rfl

/-- All nodes of a citation tree (the node itself and, recursively, the nodes
of its children), used to state tree-wide invariants. -/
def CitationNode.allNodes : CitationNode → List CitationNode
  | .mk p cs d => .mk p cs d :: cs.attach.flatMap (fun c => allNodes c.1)
decreasing_by
  have := List.sizeOf_lt_of_mem c.2
  simp
  omega

theorem CitationNode.allNodes_mk (p : Paper) (cs : List CitationNode) (d : Nat) :
    (CitationNode.mk p cs d).allNodes =
      .mk p cs d :: cs.flatMap CitationNode.allNodes := by
  rw [CitationNode.allNodes]
  simp [List.attach]

theorem CitationNode.mem_allNodes_mk {n : CitationNode} {p : Paper}
    {cs : List CitationNode} {d : Nat} :
    n ∈ (CitationNode.mk p cs d).allNodes ↔
      n = .mk p cs d ∨ ∃ c ∈ cs, n ∈ c.allNodes := by
  rw [CitationNode.allNodes_mk]
  simp

/-- Structural induction principle for `CitationNode` that recurses into the
children list. -/
theorem CitationNode.inductionOn (motive : CitationNode → Prop)
    (h : ∀ p cs d, (∀ c ∈ cs, motive c) → motive (.mk p cs d)) :
    ∀ t, motive t := by
  have key : ∀ n t, sizeOf t ≤ n → motive t := by
    intro n
    induction n with
    | zero =>
      intro t ht
      cases t with
      | mk p cs d => simp at ht
    | succ n ih =>
      intro t ht
      cases t with
      | mk p cs d =>
        apply h
        intro c hc
        apply ih
        have := List.sizeOf_lt_of_mem hc
        simp at ht
        omega
  intro t
  exact key (sizeOf t) t le_rfl

theorem CitationNode.self_mem_allNodes (t : CitationNode) : t ∈ t.allNodes := by
  cases t with
  | mk p cs d => rw [CitationNode.allNodes_mk]; exact List.mem_cons_self _ _

/-! ## Fetched pages and extraction (`_parse_paper_info`, `_is_captcha_page`) -/

/-- One `gs_r` result div, abstracted to the components `_parse_paper_info`
(`papertracer.py` lines 111-194) extracts from its HTML:

* `titleText`: the stripped text of the title element/link, `none` when no
  `h3`/`gs_rt` element is found (the code then uses `"Unknown Title"`);
* `authors`, `year`: the author string and 4-digit-year token produced by the
  `gs_a`-text regexes (text processing abstracted to its result — no claim
  depends on it);
* `citedBy`: the `Cited by N` link's count and (already URL-joined) href,
  `none` when no citation link is present (the code then uses `0` and `""`);
* `url`, `abstract`: the title link's href and the `gs_rs` abstract text. -/
structure ResultDiv where
  titleText : Option String
  authors : String := ""
  year : String := ""
  citedBy : Option (Int × String) := none
  url : String := ""
  abstract : String := ""
  deriving DecidableEq, Repr

/-- `_parse_paper_info` (lines 111-194): a missing title element yields
`"Unknown Title"`; an empty or sentinel title (case-insensitively
`"unknown title"`, `"parse error"`, `""`) is normalised to the
`Paper(title="Parse Error", authors="", year="")` sentinel; otherwise the
extracted components are assembled into a `Paper`. -/
def parse_paper_info (d : ResultDiv) : Paper :=
  let title := d.titleText.getD "Unknown Title"
  if title = "" ∨ lowerChars title = "unknown title".data ∨
      lowerChars title = "parse error".data then
    { title := "Parse Error", authors := "", year := "" }
  else
    match d.citedBy with
    | some (n, href) =>
      { title := title, authors := d.authors, year := d.year,
        citation_count := n, url := d.url, cited_by_url := href,
        abstract := d.abstract }
    | none =>
      { title := title, authors := d.authors, year := d.year,
        citation_count := 0, url := d.url, cited_by_url := "",
        abstract := d.abstract }

/-- A fetched page, abstracted to what the crawler inspects: the rendered
text (`soup.get_text()`), whether a reCAPTCHA widget element is structurally
present (`g-recaptcha` div / `recaptcha` iframe), the `<title>` text, and the
result divs found by the `gs_r`/`gs_ri`/`data-lid` selector cascade. -/
structure Page where
  text : String := ""
  hasRecaptchaWidget : Bool := false
  title : Option String := none
  divs : List ResultDiv := []
  deriving DecidableEq, Repr

/-- Keyword set of `_is_captcha_page` (lines 664-671). -/
def captchaIndicators : List String :=
  ["please show you\x27re not a robot", "captcha", "recaptcha", "robot",
   "verify you are human", "unusual traffic"]

/-- Additional keyword set of `_is_captcha_page` (lines 685-689). -/
def additionalIndicators : List String :=
  ["unusual traffic from your network", "automated requests from your computer",
   "network is sending automated queries"]

/-- `_is_captcha_page` (lines 662-694): keyword containment on the lowercased
page text, or a structurally present reCAPTCHA widget. -/
def is_captcha_page (page : Page) : Bool :=
  let t := lowerChars page.text
  captchaIndicators.any (fun k => subChars k.data t) ||
    page.hasRecaptchaWidget ||
    additionalIndicators.any (fun k => subChars k.data t)

/-! ## The stable descending sort of line 308

`papers.sort(key=lambda p: p.citation_count, reverse=True)` is Python's
stable sort in descending key order.  A stable sort's output is uniquely
determined by the key order and the input order, so the insertion sort below
computes exactly the same list. -/

/-- Stable descending insertion: `p` is placed before the first element whose
`citation_count` is `≤ p.citation_count` (so earlier input elements with an
equal key stay first). -/
def insertPaperDesc (p : Paper) : List Paper → List Paper
  | [] => [p]
  | q :: t => if p.citation_count < q.citation_count then q :: insertPaperDesc p t
              else p :: q :: t

/-- `papers.sort(key=lambda p: p.citation_count, reverse=True)` (line 308). -/
def sortPapersDesc (l : List Paper) : List Paper := l.foldr insertPaperDesc []

/-- Descending citation-count order between papers. -/
def paperGE (a b : Paper) : Prop := b.citation_count ≤ a.citation_count

theorem insertPaperDesc_mem {p q : Paper} {l : List Paper} :
    q ∈ insertPaperDesc p l ↔ q = p ∨ q ∈ l := by
  induction l with
  | nil => simp [insertPaperDesc]
  | cons a t ih =>
    by_cases h : p.citation_count < a.citation_count
    · simp only [insertPaperDesc, if_pos h, List.mem_cons, ih]
      tauto
    · simp only [insertPaperDesc, if_neg h, List.mem_cons]

theorem insertPaperDesc_pairwise {p : Paper} {l : List Paper}
    (hl : l.Pairwise paperGE) : (insertPaperDesc p l).Pairwise paperGE := by
  induction l with
  | nil => simp [insertPaperDesc, List.pairwise_singleton]
  | cons a t ih =>
    rw [List.pairwise_cons] at hl
    by_cases h : p.citation_count < a.citation_count
    · rw [insertPaperDesc, if_pos h, List.pairwise_cons]
      refine ⟨?_, ih hl.2⟩
      intro b hb
      rcases insertPaperDesc_mem.1 hb with hbp | hbt
      · subst hbp; exact le_of_lt h
      · exact hl.1 b hbt
    · rw [insertPaperDesc, if_neg h, List.pairwise_cons]
      push_neg at h
      refine ⟨?_, List.Pairwise.cons hl.1 hl.2⟩
      intro b hb
      rcases List.mem_cons.1 hb with hba | hbt
      · subst hba; exact h
      · exact le_trans (hl.1 b hbt) h

theorem sortPapersDesc_pairwise (l : List Paper) :
    (sortPapersDesc l).Pairwise paperGE := by
  induction l with
  | nil => simp [sortPapersDesc]
  | cons a t ih => exact insertPaperDesc_pairwise ih

theorem sortPapersDesc_mem {q : Paper} {l : List Paper} :
    q ∈ sortPapersDesc l ↔ q ∈ l := by
  induction l with
  | nil => simp [sortPapersDesc]
  | cons a t ih =>
    simp only [sortPapersDesc, List.foldr_cons] at *
    rw [insertPaperDesc_mem, ih]
    simp

/-! ## Crawler configuration, mutable state and oracle -/

/-- Constructor parameters of `GoogleScholarCrawler.__init__` (lines 61-71)
that the claims depend on.  `useBrowserFallback` is the effective value
`use_browser_fallback and BROWSER_AVAILABLE`.  The delay range is embedded
over `ℚ` (the float arithmetic involved is exact on the values used). -/
structure CrawlerConfig where
  maxDepth : Nat := 3
  maxPapersPerLevel : Nat := 10
  delayMin : ℚ := 2
  delayMax : ℚ := 5
  maxCaptchaRetries : Nat := 3
  useBrowserFallback : Bool := true
  proxyList : List String := []
  skip429Errors : Bool := false

/-- The crawler's mutable state (fields set in `__init__`, lines 72-92),
plus ghost instrumentation:

* `trace` records every URL passed to `session.get` (the fake-transport call
  count per URL demanded by the spec's Dedup property);
* `sleeps` records every duration passed to `time.sleep`;
* `manualCalls` counts invocations of `_handle_manual_captcha`;
* `now` is the model clock read by `datetime.now()`;
* `rngIdx` indexes the oracle's stream of random samples;
* `browserCalls` indexes the oracle's browser-rendering outcomes. -/
structure CrawlerState where
  visitedUrls : List String := []
  requestCount : Nat := 0
  last429Time : Option ℚ := none
  consecutive429Count : Nat := 0
  proxyIndex : Nat := 0
  sessionId : String := ""
  now : ℚ := 0
  rngIdx : Nat := 0
  browserCalls : Nat := 0
  manualCalls : Nat := 0
  trace : List String := []
  sleeps : List ℚ := []

/-- Outcome of one `session.get(url)` + `raise_for_status()`: either a parsed
page, or a `requests.exceptions.RequestException` carrying `str(e)` (this
covers both transport errors and non-2xx statuses such as HTTP 429). -/
inductive GetResult where
  | success (page : Page)
  | failure (msg : String)
  deriving DecidableEq, Repr

/-- The environment: a fake transport plus the other nondeterministic inputs.

* `transport url i` is the outcome of the `i`-th network request of the run
  (indexed by the length of `trace`);
* `browserPage url k` is the page rendered by the `k`-th browser fetch, or
  `none` when browser initialisation/navigation fails;
* `manualResult url m` is the page content obtained by the `m`-th
  `_handle_manual_captcha` session, or `none` when the human aborts;
* `rand i` is the `i`-th raw random sample; `uniform(a,b)` maps it into
  `[a,b]`. -/
structure Oracle where
  transport : String → Nat → GetResult
  browserPage : String → Nat → Option Page := fun _ _ => none
  manualResult : String → Nat → Option Page := fun _ _ => none
  rand : Nat → ℚ := fun _ => 0

/-! ## Primitive state operations -/

/-- `time.sleep(d)` (ghost-recorded). -/
def sleepFor (d : ℚ) (st : CrawlerState) : CrawlerState :=
  { st with sleeps := st.sleeps ++ [d] }

def clamp01 (x : ℚ) : ℚ := max 0 (min 1 x)

/-- The value drawn by `random.uniform(a, b)`: the current oracle sample
mapped into `[a, b]`. -/
def uniformValue (o : Oracle) (a b : ℚ) (st : CrawlerState) : ℚ :=
  a + (b - a) * clamp01 (o.rand st.rngIdx)

/-- Advancing the random stream after one draw. -/
def bumpRng (st : CrawlerState) : CrawlerState :=
  { st with rngIdx := st.rngIdx + 1 }

/-- `_update_headers` (lines 613-628): draws one random sample
(`random.choice` over the User-Agent pool); the HTTP headers themselves are
outside the model. -/
def update_headers (st : CrawlerState) : CrawlerState :=
  { st with rngIdx := st.rngIdx + 1 }

/-- `_rotate_proxy` (lines 630-660): round-robin advance of `proxy_index`
(no-op without a proxy list); session/browser plumbing is outside the model. -/
def rotate_proxy (cfg : CrawlerConfig) (st : CrawlerState) : CrawlerState :=
  if cfg.proxyList.isEmpty then st
  else { st with proxyIndex := (st.proxyIndex + 1) % cfg.proxyList.length }

/-- `_reset_429_tracking` (lines 1113-1118). -/
def reset_429_tracking (st : CrawlerState) : CrawlerState :=
  { st with consecutive429Count := 0, last429Time := none }

/-- `self.session.get(url)` issues the network request: the response is the
transport's outcome at the current request index, and the request is recorded
in the ghost trace by `recordRequest`. -/
def recordRequest (url : String) (st : CrawlerState) : CrawlerState :=
  { st with trace := st.trace ++ [url] }

/-- The scaling `_adaptive_delay` (lines 1038-1055) applies to the random
base delay: ×1.5 every 10th request, ×2 when a 429 occurred within the last
5 minutes.  `st` is the state after the `request_count` increment. -/
def adaptiveScale (st : CrawlerState) (b : ℚ) : ℚ :=
  let b := if st.requestCount % 10 = 0 then b * (3/2) else b
  match st.last429Time with
  | some t => if st.now - t < 300 then b * 2 else b
  | none => b

/-- `_adaptive_delay` (lines 1038-1055): increments `request_count`, draws
`uniform(*delay_range)`, scales it, sleeps. -/
def adaptive_delay (cfg : CrawlerConfig) (o : Oracle) (st : CrawlerState) :
    CrawlerState :=
  let st := { st with requestCount := st.requestCount + 1 }
  let b := uniformValue o cfg.delayMin cfg.delayMax st
  let st := bumpRng st
  sleepFor (adaptiveScale st b) st

/-- `_handle_manual_captcha` (lines 832-1018): the whole interactive
browser-plus-human procedure is abstracted to the oracle's outcome for the
current manual-intervention index; the ghost counter records the invocation. -/
def handle_manual_captcha (o : Oracle) (url : String) (st : CrawlerState) :
    Option Page × CrawlerState :=
  (o.manualResult url st.manualCalls, { st with manualCalls := st.manualCalls + 1 })

/-- `"429" in error_msg or "Too Many Requests" in error_msg`
(lines 330, 356). -/
def is429Message (msg : String) : Bool :=
  strContains msg "429" || strContains msg "Too Many Requests"

/-- The delay slept by the full (non-skip) 429 strategy at consecutive-429
count `n` with jitter `j`: `base_delay + progressive_delay + random_delay`
(lines 1093-1096). -/
def backoff429Delay (n : Nat) (j : ℚ) : ℚ := 10 + 5 * n + j

/-- `_handle_429_error` (lines 1057-1111).  Returns the page content obtained
by a successful manual verification, else `none`. -/
def handle_429_error (cfg : CrawlerConfig) (o : Oracle) (url : String)
    (st : CrawlerState) : Option Page × CrawlerState :=
  let st := { st with last429Time := some st.now,
                      consecutive429Count := st.consecutive429Count + 1 }
  if cfg.skip429Errors then
    let r := uniformValue o 1 3 st
    let st := bumpRng st
    let st := sleepFor (2 + r) st
    let st := update_headers st
    (none, st)
  else
    let st := if cfg.proxyList.isEmpty then st else rotate_proxy cfg st
    let st := update_headers st
    let r := uniformValue o 5 15 st
    let st := bumpRng st
    let st := sleepFor (backoff429Delay st.consecutive429Count r) st
    if 3 ≤ st.consecutive429Count then
      if cfg.useBrowserFallback then handle_manual_captcha o url st
      else (none, st)
    else (none, st)

/-- `_handle_captcha_or_block` (lines 1020-1036): optional proxy rotation,
header refresh, progressive delay `5 + attempt*3 + uniform(1,5)`. -/
def handle_captcha_or_block (cfg : CrawlerConfig) (o : Oracle) (attempt : Nat)
    (st : CrawlerState) : CrawlerState :=
  let st := if cfg.proxyList.isEmpty then st else rotate_proxy cfg st
  let st := update_headers st
  let r := uniformValue o 1 5 st
  let st := bumpRng st
  sleepFor (5 + 3 * attempt + r) st

/-- `_fetch_with_browser` (lines 696-770).  The browser rendering is supplied
by the oracle (`none` models initialisation/navigation failure).  Note the
source's line 723-724 conditional: by Python operator precedence the whole
429-indicator disjunction is guarded by `if soup.title else False`, so a page
without a `<title>` never takes the 429 branch there. -/
def fetch_with_browser (cfg : CrawlerConfig) (o : Oracle) (url : String)
    (st : CrawlerState) : Option Page × CrawlerState :=
  let k := st.browserCalls
  let st := { st with browserCalls := st.browserCalls + 1 }
  match o.browserPage url k with
  | none => (none, st)
  | some page =>
    let st := sleepFor 3 st
    let t := lowerChars page.text
    let cond429 :=
      match page.title with
      | some ti =>
          subChars "429".data t || subChars "too many requests".data t ||
          subChars "unusual traffic".data t ||
          subChars "sorry".data (lowerChars ti)
      | none => false
    if cond429 then
      if cfg.skip429Errors then
        let st := update_headers st
        let r := uniformValue o 2 5 st
        let st := bumpRng st
        let st := sleepFor r st
        (some page, st)
      else handle_manual_captcha o url st
    else if is_captcha_page page then
      if cfg.skip429Errors then
        let st := update_headers st
        let r := uniformValue o 2 5 st
        let st := bumpRng st
        let st := sleepFor r st
        (some page, st)
      else handle_manual_captcha o url st
    else (some page, st)

/-! ## The retry loop of `_fetch_citations` / `_get_paper_from_scholar_url`

The bodies of `_fetch_citations` (lines 215-382) and
`_get_paper_from_scholar_url` (lines 386-539) are the same retry loop
line-for-line; they differ only in how a normal page is processed and in the
empty result returned on failure (`[]` vs `None`).  The loop is therefore
embedded once, parameterised by the empty result and the page processor. -/

/-- The CAPTCHA-detected branch (lines 244-289 resp. 415-460): header
refresh, progressive delay `2 + attempt*2 + uniform(1,3)`; then in skip mode
an extra delay on retries and another attempt; otherwise a one-time switch to
the browser tier, or the generic CAPTCHA handling followed by another attempt
(or giving up once the budget is spent).  `recur attempt' browser' st'`
continues the loop. -/
def captchaBranch {α : Type} (cfg : CrawlerConfig) (o : Oracle) (empty : α)
    (recur : Nat → Bool → CrawlerState → α × CrawlerState)
    (attempt : Nat) (browserAttempt : Bool) (st : CrawlerState) :
    α × CrawlerState :=
  let st := update_headers st
  let r := uniformValue o 1 3 st
  let st := bumpRng st
  let st := sleepFor (2 + 2 * attempt + r) st
  if cfg.skip429Errors then
    let st :=
      if 0 < attempt then
        let e := uniformValue o 3 8 st
        sleepFor e (bumpRng st)
      else st
    recur (attempt + 1) browserAttempt st
  else if !browserAttempt && cfg.useBrowserFallback then
    recur attempt true st
  else
    let st := handle_captcha_or_block cfg o attempt st
    if cfg.maxCaptchaRetries ≤ attempt + 1 then (empty, st)
    else recur (attempt + 1) false st

/-- The `requests.exceptions.RequestException` branch after the 429 handling
(lines 343-359 resp. 500-516): increment the attempt counter, one-time switch
to the browser tier, give up once the budget is spent, else sleep
`uniform(3,7) * (attempt+1)` for non-429 errors and retry. -/
def requestExnBranch {α : Type} (cfg : CrawlerConfig) (o : Oracle) (empty : α)
    (recur : Nat → Bool → CrawlerState → α × CrawlerState)
    (attempt : Nat) (browserAttempt : Bool) (msg : String) (st : CrawlerState) :
    α × CrawlerState :=
  let attempt := attempt + 1
  if !browserAttempt && cfg.useBrowserFallback then
    recur attempt true st
  else if cfg.maxCaptchaRetries ≤ attempt then (empty, st)
  else
    let st :=
      if is429Message msg then st
      else
        let r := uniformValue o 3 7 st
        sleepFor (r * (attempt + 1)) (bumpRng st)
    recur attempt false st

/-- The shared `while attempt < self.max_captcha_retries` loop
(lines 218-382 resp. 389-539), structurally recursive on a fuel parameter.
Each iteration obtains a page either from the browser tier (when
`browser_attempt` is set) or from a direct GET preceded by the adaptive delay
and the periodic header refresh; a CAPTCHA page goes to `captchaBranch`, a
request exception goes to the 429 handling and `requestExnBranch` — where a
successful manual verification `break`s out of the loop and so reaches the
final `return []` / `return None` with the recovered content unused — and a
normal page is handed to `process`. -/
def retryLoop {α : Type} (cfg : CrawlerConfig) (o : Oracle) (empty : α)
    (process : Page → CrawlerState → α × CrawlerState) (url : String) :
    Nat → Nat → Bool → CrawlerState → α × CrawlerState
  | 0, _, _, st => (empty, st)
  | fuel + 1, attempt, browserAttempt, st =>
    if cfg.maxCaptchaRetries ≤ attempt then (empty, st)
    else if browserAttempt && cfg.useBrowserFallback then
      match fetch_with_browser cfg o url st with
      | (none, st) => (empty, st)
      | (some page, st) =>
        if is_captcha_page page then
          captchaBranch cfg o empty
            (fun a b s => retryLoop cfg o empty process url fuel a b s)
            attempt browserAttempt st
        else process page st
    else
      let st := adaptive_delay cfg o st
      let st := if st.requestCount % 5 = 0 then update_headers st else st
      let res := o.transport url st.trace.length
      let st := recordRequest url st
      match res with
      | .failure msg =>
        if is429Message msg then
          match handle_429_error cfg o url st with
          | (some _, st) => (empty, st)
          | (none, st) =>
            requestExnBranch cfg o empty
              (fun a b s => retryLoop cfg o empty process url fuel a b s)
              attempt browserAttempt msg st
        else
          let st := reset_429_tracking st
          requestExnBranch cfg o empty
            (fun a b s => retryLoop cfg o empty process url fuel a b s)
            attempt browserAttempt msg st
      | .success page =>
        if is_captcha_page page then
          captchaBranch cfg o empty
            (fun a b s => retryLoop cfg o empty process url fuel a b s)
            attempt browserAttempt st
        else process page st

/-- The valid-title filter of line 304. -/
def validTitle (p : Paper) : Bool :=
  p.title != "Parse Error" && p.title != "Unknown Title"

/-- Normal-page processing of `_fetch_citations` (lines 291-323): parse the
first `max_papers_per_level` result divs, drop sentinel titles, sort by
citation count descending, reset the 429 tracking and return. -/
def processCitationsPage (cfg : CrawlerConfig) (page : Page)
    (st : CrawlerState) : List Paper × CrawlerState :=
  let papers := ((page.divs.take cfg.maxPapersPerLevel).map parse_paper_info).filter validTitle
  let papers := sortPapersDesc papers
  (papers, reset_429_tracking st)

/-- Normal-page processing of `_get_paper_from_scholar_url` (lines 462-480):
parse the first search result if any (note: no sentinel filter and no 429
reset on this path). -/
def processScholarPage (page : Page) (st : CrawlerState) :
    Option Paper × CrawlerState :=
  match page.divs.head? with
  | some firstResult => (some (parse_paper_info firstResult), st)
  | none => (none, st)

/-- Fuel passed to `retryLoop` by the entry points: strictly dominates the
loop variant (see the header comment). -/
def retryFuel (cfg : CrawlerConfig) : Nat := 2 * cfg.maxCaptchaRetries + 1

/-- `_fetch_citations` (lines 208-382): empty or already-visited URLs
short-circuit to `[]` with the state untouched; otherwise the URL is marked
visited before any network activity and the retry loop runs. -/
def fetch_citations (cfg : CrawlerConfig) (o : Oracle) (citedByUrl : String)
    (st : CrawlerState) : List Paper × CrawlerState :=
  if citedByUrl = "" ∨ citedByUrl ∈ st.visitedUrls then ([], st)
  else
    let st := { st with visitedUrls := citedByUrl :: st.visitedUrls }
    retryLoop cfg o [] (processCitationsPage cfg) citedByUrl
      (retryFuel cfg) 0 false st

/-- `_get_paper_from_scholar_url` (lines 384-539). -/
def get_paper_from_scholar_url (cfg : CrawlerConfig) (o : Oracle)
    (scholarUrl : String) (st : CrawlerState) :
    Option Paper × CrawlerState :=
  retryLoop cfg o none processScholarPage scholarUrl (retryFuel cfg) 0 false st

/-! ## The tree builder (`build_citation_tree`, `_build_citation_subtree`) -/

/-- The per-level expansion loop shared by `build_citation_tree`
(lines 578-586) and `_build_citation_subtree` (lines 601-609): a candidate
with a non-empty `cited_by_url` is recursively expanded while
`depth + 1 < max_depth` (a `None` subtree is silently dropped), otherwise it
is appended as a leaf at `depth + 1`. -/
def buildChildrenLoop (cfg : CrawlerConfig)
    (recur : Paper → Nat → CrawlerState → Option CitationNode × CrawlerState)
    (depth : Nat) : List Paper → CrawlerState →
    List CitationNode × CrawlerState
  | [], st => ([], st)
  | cp :: rest, st =>
    if cp.cited_by_url ≠ "" ∧ depth + 1 < cfg.maxDepth then
      match recur cp (depth + 1) st with
      | (some child, st) =>
        let (others, st) := buildChildrenLoop cfg recur depth rest st
        (child :: others, st)
      | (none, st) => buildChildrenLoop cfg recur depth rest st
    else
      let (others, st) := buildChildrenLoop cfg recur depth rest st
      (CitationNode.mk cp [] (depth + 1) :: others, st)

/-- `_build_citation_subtree` (lines 590-611), fuel-indexed: the entry point
passes `max_depth - depth`, which is `0` exactly when the source guard
`depth >= self.max_depth` fires, and each recursive call (at `depth + 1`)
receives `max_depth - (depth + 1)`, i.e. the predecessor fuel.  The guard is
nevertheless kept in the positive-fuel case, faithful to line 592. -/
def buildSubtreeAux (cfg : CrawlerConfig) (o : Oracle) :
    Nat → Paper → Nat → CrawlerState → Option CitationNode × CrawlerState
  | 0, _, _, st => (none, st)
  | fuel + 1, paper, depth, st =>
    if cfg.maxDepth ≤ depth then (none, st)
    else
      let (citing, st) := fetch_citations cfg o paper.cited_by_url st
      let (children, st) :=
        buildChildrenLoop cfg (fun p d s => buildSubtreeAux cfg o fuel p d s)
          depth citing st
      (some (CitationNode.mk paper children depth), st)

/-- `_build_citation_subtree` entry point. -/
def build_citation_subtree (cfg : CrawlerConfig) (o : Oracle) (paper : Paper)
    (depth : Nat) (st : CrawlerState) : Option CitationNode × CrawlerState :=
  buildSubtreeAux cfg o (cfg.maxDepth - depth) paper depth st

/-- The placeholder root Paper synthesised for a cited-by listing start URL
(lines 553-560). -/
def rootPlaceholderPaper (startUrl : String) : Paper :=
  { title := "Root Paper (从引用页面开始)", authors := "Unknown", year := "",
    citation_count := 0, url := "", cited_by_url := startUrl }

/-- Expansion of the root node (lines 572-588): fetch the root paper's
citers and run the per-level loop at the root's depth. -/
def buildRootNode (cfg : CrawlerConfig) (o : Oracle) (currentDepth : Nat)
    (rootPaper : Paper) (st : CrawlerState) :
    Option CitationNode × CrawlerState :=
  let (citing, st) := fetch_citations cfg o rootPaper.cited_by_url st
  let (children, st) :=
    buildChildrenLoop cfg (build_citation_subtree cfg o) currentDepth citing st
  (some (CitationNode.mk rootPaper children currentDepth), st)

/-- `build_citation_tree` (lines 541-588): depth-capped; at depth 0 a
`cites=`-containing start URL gets the synthetic placeholder root, any other
start URL is resolved through `_get_paper_from_scholar_url` (`None` aborts
the build); a non-zero `current_depth` returns `None` (line 567-569). -/
def build_citation_tree (cfg : CrawlerConfig) (o : Oracle) (startUrl : String)
    (currentDepth : Nat) (st : CrawlerState) :
    Option CitationNode × CrawlerState :=
  if cfg.maxDepth ≤ currentDepth then (none, st)
  else if currentDepth = 0 then
    if strContains startUrl "cites=" then
      buildRootNode cfg o currentDepth (rootPlaceholderPaper startUrl) st
    else
      match get_paper_from_scholar_url cfg o startUrl st with
      | (none, st) => (none, st)
      | (some rootPaper, st) => buildRootNode cfg o currentDepth rootPaper st
  else (none, st)

/-! ## Session snapshots (`save_session_state` / `load_session_state`) -/

/-- Modelled from the spec: `GoogleScholarCrawler.save_session_state` and
`load_session_state` are called by `enhanced_demo.py`
(`SessionManager.force_save`/`load_session`, lines 189-204, and the
`--resume` path at lines 277-288) but are defined nowhere in the repository
sources.  Spec §6 fixes the snapshot as the flat record
`{session_id, visited_urls: [string], request_count: int,
consecutive_rate_limit_count: int, last_rate_limit_time: string|null,
current_proxy_index: int}` (the textual timestamp form is abstracted to the
round-trippable value). -/
structure SessionSnapshot where
  session_id : String
  visited_urls : List String
  request_count : Nat
  consecutive_rate_limit_count : Nat
  last_rate_limit_time : Option ℚ
  current_proxy_index : Nat
  deriving DecidableEq, Repr

/-- Modelled from the spec (§4.4 `save(session)`): snapshot the orchestrator's
persistable state. -/
def save_session_state (st : CrawlerState) : SessionSnapshot :=
  { session_id := st.sessionId,
    visited_urls := st.visitedUrls,
    request_count := st.requestCount,
    consecutive_rate_limit_count := st.consecutive429Count,
    last_rate_limit_time := st.last429Time,
    current_proxy_index := st.proxyIndex }

/-- Modelled from the spec (§4.4 `load(snapshotRef)`): "Restoring a session
re-seeds the Orchestrator's `visitedUrls`, `requestCount`,
`consecutiveRateLimitCount`, `lastRateLimitTime`, and `proxyIndex` exactly"
(plus the snapshot's `sessionId`, per §3) into the running crawler state
`st`. -/
def load_session_state (snap : SessionSnapshot) (st : CrawlerState) :
    CrawlerState :=
  { st with sessionId := snap.session_id,
            visitedUrls := snap.visited_urls,
            requestCount := snap.request_count,
            consecutive429Count := snap.consecutive_rate_limit_count,
            last429Time := snap.last_rate_limit_time,
            proxyIndex := snap.current_proxy_index }

/-! ## JSON persistence (`save_tree_to_json` / `load_tree_from_json`)

`save_tree_to_json` (lines 1163-1185) serialises `node_to_dict(tree)` with
`json.dump`; `load_tree_from_json` (lines 1187-1198) parses the file with
`json.load` and rebuilds the tree with `dict_to_node`.  The textual JSON
encoding round-trips the value (strings and ints are preserved exactly), so
the file is identified with its parsed JSON value and the two inner
converters are embedded directly. -/

/-- JSON values as produced/consumed by `json.dump`/`json.load` for this
format (strings, ints, arrays, objects). -/
inductive Json where
  | str (s : String)
  | num (n : Int)
  | arr (xs : List Json)
  | obj (fields : List (String × Json))
  deriving Repr

/-- Python dict lookup `data[k]` (keys are unique in a JSON object). -/
def jsonLookup (k : String) : List (String × Json) → Option Json
  | [] => none
  | (k', v) :: rest => if k' = k then some v else jsonLookup k rest

/-- The `'paper'` sub-dictionary of `node_to_dict` (lines 1166-1175). -/
def paper_to_dict (p : Paper) : Json :=
  .obj [("title", .str p.title), ("authors", .str p.authors),
        ("year", .str p.year), ("citation_count", .num p.citation_count),
        ("url", .str p.url), ("cited_by_url", .str p.cited_by_url),
        ("abstract", .str p.abstract)]

/-- `node_to_dict` (lines 1165-1178). -/
def node_to_dict : CitationNode → Json
  | .mk p cs d =>
    .obj [("paper", paper_to_dict p), ("depth", .num d),
          ("children", .arr (cs.attach.map (fun c => node_to_dict c.1)))]
decreasing_by
  have := List.sizeOf_lt_of_mem c.2
  simp
  omega

theorem node_to_dict_mk (p : Paper) (cs : List CitationNode) (d : Nat) :
    node_to_dict (.mk p cs d) =
      .obj [("paper", paper_to_dict p), ("depth", .num d),
            ("children", .arr (cs.map node_to_dict))] := by
  rw [node_to_dict]
  simp [List.attach]

/-- `Paper(**data['paper'])` (line 1190): rebuild a `Paper` from its
sub-dictionary.  Absent optional keys take the dataclass defaults; a value
outside the field's type lies outside the embedded domain and yields
`none` (in Python such a load raises or produces an ill-typed record). -/
def paper_from_json : Json → Option Paper
  | .obj fields =>
    let strField := fun (k : String) (dflt : String) =>
      match jsonLookup k fields with
      | some (.str s) => some s
      | none => some dflt
      | some _ => none
    let intField := fun (k : String) (dflt : Int) =>
      match jsonLookup k fields with
      | some (.num n) => some n
      | none => some dflt
      | some _ => none
    match jsonLookup "title" fields with
    | some (.str title) => do
      let authors ← strField "authors" ""
      let year ← strField "year" ""
      let cc ← intField "citation_count" 0
      let url ← strField "url" ""
      let cbu ← strField "cited_by_url" ""
      let ab ← strField "abstract" ""
      some { title := title, authors := authors, year := year,
             citation_count := cc, url := url, cited_by_url := cbu,
             abstract := ab }
    | _ => none
  | _ => none

theorem jsonLookup_sizeOf {k : String} {fields : List (String × Json)}
    {v : Json} (h : jsonLookup k fields = some v) :
    sizeOf v < 1 + sizeOf fields := by
  induction fields with
  | nil => simp [jsonLookup] at h
  | cons kv rest ih =>
    obtain ⟨k', v'⟩ := kv
    rw [jsonLookup] at h
    by_cases hk : k' = k
    · rw [if_pos hk] at h
      cases h
      simp
      omega
    · rw [if_neg hk] at h
      have := ih h
      simp
      omega

mutual

/-- `dict_to_node` (lines 1189-1193).  A negative `depth` lies outside the
embedded domain of depth-`Nat` trees and yields `none`. -/
def dict_to_node : Json → Option CitationNode
  | .obj fields =>
    (match jsonLookup "paper" fields with
    | none => none
    | some pj =>
      match paper_from_json pj with
      | none => none
      | some p =>
        match jsonLookup "depth" fields with
        | some (.num d) =>
          if 0 ≤ d then
            match h3 : jsonLookup "children" fields with
            | some (.arr cs) =>
              match dict_to_children cs with
              | some children => some (.mk p children d.toNat)
              | none => none
            | _ => none
          else none
        | _ => none)
  | _ => none
termination_by j => sizeOf j
decreasing_by
  have h4 := jsonLookup_sizeOf h3
  simp at h4 ⊢
  omega

/-- `[dict_to_node(child) for child in data['children']]` (line 1192): an
all-or-nothing traversal (a failing child load fails the whole load, as the
Python exception would). -/
def dict_to_children : List Json → Option (List CitationNode)
  | [] => some []
  | c :: rest =>
    match dict_to_node c with
    | none => none
    | some n =>
      match dict_to_children rest with
      | none => none
      | some ns => some (n :: ns)
termination_by l => sizeOf l
decreasing_by
  all_goals simp
  all_goals omega

end

/-! ## State-preservation scaffolding -/

@[simp] theorem sleepFor_visitedUrls (d : ℚ) (st : CrawlerState) :
    (sleepFor d st).visitedUrls = st.visitedUrls := rfl

@[simp] theorem sleepFor_trace (d : ℚ) (st : CrawlerState) :
    (sleepFor d st).trace = st.trace := rfl

@[simp] theorem sleepFor_manualCalls (d : ℚ) (st : CrawlerState) :
    (sleepFor d st).manualCalls = st.manualCalls := rfl

@[simp] theorem sleepFor_consecutive (d : ℚ) (st : CrawlerState) :
    (sleepFor d st).consecutive429Count = st.consecutive429Count := rfl

@[simp] theorem sleepFor_sleeps (d : ℚ) (st : CrawlerState) :
    (sleepFor d st).sleeps = st.sleeps ++ [d] := rfl

@[simp] theorem bumpRng_visitedUrls (st : CrawlerState) :
    (bumpRng st).visitedUrls = st.visitedUrls := rfl

@[simp] theorem bumpRng_trace (st : CrawlerState) :
    (bumpRng st).trace = st.trace := rfl

@[simp] theorem bumpRng_manualCalls (st : CrawlerState) :
    (bumpRng st).manualCalls = st.manualCalls := rfl

@[simp] theorem bumpRng_consecutive (st : CrawlerState) :
    (bumpRng st).consecutive429Count = st.consecutive429Count := rfl

@[simp] theorem bumpRng_sleeps (st : CrawlerState) :
    (bumpRng st).sleeps = st.sleeps := rfl

@[simp] theorem update_headers_visitedUrls (st : CrawlerState) :
    (update_headers st).visitedUrls = st.visitedUrls := rfl

@[simp] theorem update_headers_trace (st : CrawlerState) :
    (update_headers st).trace = st.trace := rfl

@[simp] theorem update_headers_manualCalls (st : CrawlerState) :
    (update_headers st).manualCalls = st.manualCalls := rfl

@[simp] theorem update_headers_consecutive (st : CrawlerState) :
    (update_headers st).consecutive429Count = st.consecutive429Count := rfl

@[simp] theorem update_headers_sleeps (st : CrawlerState) :
    (update_headers st).sleeps = st.sleeps := rfl

@[simp] theorem rotate_proxy_visitedUrls (cfg : CrawlerConfig) (st : CrawlerState) :
    (rotate_proxy cfg st).visitedUrls = st.visitedUrls := by
  unfold rotate_proxy; split <;> rfl

@[simp] theorem rotate_proxy_trace (cfg : CrawlerConfig) (st : CrawlerState) :
    (rotate_proxy cfg st).trace = st.trace := by
  unfold rotate_proxy; split <;> rfl

@[simp] theorem rotate_proxy_manualCalls (cfg : CrawlerConfig) (st : CrawlerState) :
    (rotate_proxy cfg st).manualCalls = st.manualCalls := by
  unfold rotate_proxy; split <;> rfl

@[simp] theorem rotate_proxy_consecutive (cfg : CrawlerConfig) (st : CrawlerState) :
    (rotate_proxy cfg st).consecutive429Count = st.consecutive429Count := by
  unfold rotate_proxy; split <;> rfl

@[simp] theorem rotate_proxy_sleeps (cfg : CrawlerConfig) (st : CrawlerState) :
    (rotate_proxy cfg st).sleeps = st.sleeps := by
  unfold rotate_proxy; split <;> rfl

@[simp] theorem reset_429_tracking_visitedUrls (st : CrawlerState) :
    (reset_429_tracking st).visitedUrls = st.visitedUrls := rfl

@[simp] theorem reset_429_tracking_trace (st : CrawlerState) :
    (reset_429_tracking st).trace = st.trace := rfl

@[simp] theorem reset_429_tracking_manualCalls (st : CrawlerState) :
    (reset_429_tracking st).manualCalls = st.manualCalls := rfl

@[simp] theorem recordRequest_visitedUrls (url : String) (st : CrawlerState) :
    (recordRequest url st).visitedUrls = st.visitedUrls := rfl

@[simp] theorem recordRequest_manualCalls (url : String) (st : CrawlerState) :
    (recordRequest url st).manualCalls = st.manualCalls := rfl

@[simp] theorem recordRequest_trace (url : String) (st : CrawlerState) :
    (recordRequest url st).trace = st.trace ++ [url] := rfl

@[simp] theorem handle_manual_captcha_snd_visitedUrls (o : Oracle) (url : String)
    (st : CrawlerState) :
    ((handle_manual_captcha o url st).2).visitedUrls = st.visitedUrls := rfl

@[simp] theorem handle_manual_captcha_snd_trace (o : Oracle) (url : String)
    (st : CrawlerState) :
    ((handle_manual_captcha o url st).2).trace = st.trace := rfl

@[simp] theorem handle_manual_captcha_snd_manualCalls (o : Oracle) (url : String)
    (st : CrawlerState) :
    ((handle_manual_captcha o url st).2).manualCalls = st.manualCalls + 1 := rfl

@[simp] theorem adaptive_delay_visitedUrls (cfg : CrawlerConfig) (o : Oracle)
    (st : CrawlerState) : (adaptive_delay cfg o st).visitedUrls = st.visitedUrls := by
  simp [adaptive_delay]

@[simp] theorem adaptive_delay_trace (cfg : CrawlerConfig) (o : Oracle)
    (st : CrawlerState) : (adaptive_delay cfg o st).trace = st.trace := by
  simp [adaptive_delay]

@[simp] theorem adaptive_delay_manualCalls (cfg : CrawlerConfig) (o : Oracle)
    (st : CrawlerState) : (adaptive_delay cfg o st).manualCalls = st.manualCalls := by
  simp [adaptive_delay]

@[simp] theorem adaptive_delay_consecutive (cfg : CrawlerConfig) (o : Oracle)
    (st : CrawlerState) :
    (adaptive_delay cfg o st).consecutive429Count = st.consecutive429Count := by
  simp [adaptive_delay]

theorem handle_captcha_or_block_visitedUrls (cfg : CrawlerConfig) (o : Oracle)
    (attempt : Nat) (st : CrawlerState) :
    (handle_captcha_or_block cfg o attempt st).visitedUrls = st.visitedUrls := by
  simp [handle_captcha_or_block]
  split <;> simp

theorem handle_captcha_or_block_manualCalls (cfg : CrawlerConfig) (o : Oracle)
    (attempt : Nat) (st : CrawlerState) :
    (handle_captcha_or_block cfg o attempt st).manualCalls = st.manualCalls := by
  simp [handle_captcha_or_block]
  split <;> simp

theorem handle_captcha_or_block_trace (cfg : CrawlerConfig) (o : Oracle)
    (attempt : Nat) (st : CrawlerState) :
    (handle_captcha_or_block cfg o attempt st).trace = st.trace := by
  simp [handle_captcha_or_block]
  split <;> simp

theorem handle_429_error_snd_visitedUrls (cfg : CrawlerConfig) (o : Oracle)
    (url : String) (st : CrawlerState) :
    ((handle_429_error cfg o url st).2).visitedUrls = st.visitedUrls := by
  simp only [handle_429_error]
  split
  · simp
  · split <;> split <;> (try split) <;> simp

theorem handle_429_error_snd_trace (cfg : CrawlerConfig) (o : Oracle)
    (url : String) (st : CrawlerState) :
    ((handle_429_error cfg o url st).2).trace = st.trace := by
  simp only [handle_429_error]
  split
  · simp
  · split <;> split <;> (try split) <;> simp

theorem fetch_with_browser_snd_visitedUrls (cfg : CrawlerConfig) (o : Oracle)
    (url : String) (st : CrawlerState) :
    ((fetch_with_browser cfg o url st).2).visitedUrls = st.visitedUrls := by
  simp only [fetch_with_browser]
  split
  · rfl
  · split
    · split <;> simp
    · split
      · split <;> simp
      · simp

theorem captchaBranch_visitedUrls {α : Type} (cfg : CrawlerConfig) (o : Oracle)
    (empty : α) (recur : Nat → Bool → CrawlerState → α × CrawlerState)
    (attempt : Nat) (b : Bool) (st : CrawlerState)
    (hrec : ∀ a b' s, ((recur a b' s).2).visitedUrls = s.visitedUrls) :
    ((captchaBranch cfg o empty recur attempt b st).2).visitedUrls =
      st.visitedUrls := by
  simp only [captchaBranch]
  split
  · rw [hrec]
    split <;> simp
  · split
    · rw [hrec]; simp
    · split
      · simp [handle_captcha_or_block_visitedUrls]
      · rw [hrec]; simp [handle_captcha_or_block_visitedUrls]

theorem requestExnBranch_visitedUrls {α : Type} (cfg : CrawlerConfig) (o : Oracle)
    (empty : α) (recur : Nat → Bool → CrawlerState → α × CrawlerState)
    (attempt : Nat) (b : Bool) (msg : String) (st : CrawlerState)
    (hrec : ∀ a b' s, ((recur a b' s).2).visitedUrls = s.visitedUrls) :
    ((requestExnBranch cfg o empty recur attempt b msg st).2).visitedUrls =
      st.visitedUrls := by
  simp only [requestExnBranch]
  split
  · rw [hrec]
  · split
    · rfl
    · rw [hrec]
      split <;> simp

theorem retryLoop_visitedUrls {α : Type} (cfg : CrawlerConfig) (o : Oracle)
    (empty : α) (process : Page → CrawlerState → α × CrawlerState) (url : String)
    (hproc : ∀ page s, ((process page s).2).visitedUrls = s.visitedUrls) :
    ∀ fuel attempt b st,
      ((retryLoop cfg o empty process url fuel attempt b st).2).visitedUrls =
        st.visitedUrls := by
  intro fuel
  induction fuel with
  | zero => intro a b st; rfl
  | succ fuel ih =>
    intro a b st
    rw [retryLoop]
    split
    · rfl
    · split
      · split
        next st1 hfb =>
          have h2 := congrArg Prod.snd hfb
          simp only at h2
          rw [← h2]
          exact fetch_with_browser_snd_visitedUrls cfg o url st
        next page st1 hfb =>
          have h2 := congrArg Prod.snd hfb
          simp only at h2
          split
          · rw [captchaBranch_visitedUrls _ _ _ _ _ _ _ (fun a b' s => ih a b' s),
              ← h2]
            exact fetch_with_browser_snd_visitedUrls cfg o url st
          · rw [hproc, ← h2]
            exact fetch_with_browser_snd_visitedUrls cfg o url st
      · simp only []
        split
        · split
          · split
            next page st1 h429 =>
              have h2 := congrArg Prod.snd h429
              simp only at h2
              rw [← h2, handle_429_error_snd_visitedUrls]
              simp [apply_ite CrawlerState.visitedUrls]
            next st1 h429 =>
              have h2 := congrArg Prod.snd h429
              simp only at h2
              rw [requestExnBranch_visitedUrls _ _ _ _ _ _ _ _
                (fun a b' s => ih a b' s), ← h2, handle_429_error_snd_visitedUrls]
              simp [apply_ite CrawlerState.visitedUrls]
          · rw [requestExnBranch_visitedUrls _ _ _ _ _ _ _ _
              (fun a b' s => ih a b' s)]
            simp [apply_ite CrawlerState.visitedUrls]
        · split
          · rw [captchaBranch_visitedUrls _ _ _ _ _ _ _
              (fun a b' s => ih a b' s)]
            simp [apply_ite CrawlerState.visitedUrls]
          · rw [hproc]
            simp [apply_ite CrawlerState.visitedUrls]

@[simp] theorem processCitationsPage_snd_visitedUrls (cfg : CrawlerConfig)
    (page : Page) (st : CrawlerState) :
    ((processCitationsPage cfg page st).2).visitedUrls = st.visitedUrls := rfl

@[simp] theorem processScholarPage_snd_visitedUrls (page : Page)
    (st : CrawlerState) :
    ((processScholarPage page st).2).visitedUrls = st.visitedUrls := by
  unfold processScholarPage
  split <;> rfl

/-- `_fetch_citations` and the visited set: an empty or already-visited URL
leaves the state identical; a fresh URL's only effect on `visited_urls` is
its own insertion. -/
theorem fetch_citations_visitedUrls (cfg : CrawlerConfig) (o : Oracle)
    (url : String) (st : CrawlerState) :
    ((fetch_citations cfg o url st).2).visitedUrls =
      if url = "" ∨ url ∈ st.visitedUrls then st.visitedUrls
      else url :: st.visitedUrls := by
  unfold fetch_citations
  split
  next h => simp [h]
  next h =>
    simp only []
    rw [retryLoop_visitedUrls cfg o [] (processCitationsPage cfg) url
      (fun page s => processCitationsPage_snd_visitedUrls cfg page s)]

theorem fetch_citations_visited_monotone (cfg : CrawlerConfig) (o : Oracle)
    (url u : String) (st : CrawlerState) (h : u ∈ st.visitedUrls) :
    u ∈ ((fetch_citations cfg o url st).2).visitedUrls := by
  rw [fetch_citations_visitedUrls]
  split
  · exact h
  · exact List.mem_cons_of_mem _ h

/-- Number of `fetch` calls in a sequential crawl (the fold of
`_fetch_citations` over a URL list) that actually proceed past the visited
guard with argument `u` — i.e. the per-URL network-attempt count of the
spec's instrumented fake transport. -/
def crawlAttempts (cfg : CrawlerConfig) (o : Oracle) :
    CrawlerState → List String → String → Nat
  | _, [], _ => 0
  | st, url :: rest, u =>
    (if url = u ∧ ¬(url = "" ∨ url ∈ st.visitedUrls) then 1 else 0) +
      crawlAttempts cfg o ((fetch_citations cfg o url st).2) rest u

theorem crawlAttempts_zero_of_visited (cfg : CrawlerConfig) (o : Oracle)
    (urls : List String) (u : String) (st : CrawlerState)
    (h : u ∈ st.visitedUrls) : crawlAttempts cfg o st urls u = 0 := by
  induction urls generalizing st with
  | nil => rfl
  | cons url rest ih =>
    unfold crawlAttempts
    rw [if_neg, ih _ (fetch_citations_visited_monotone cfg o url u st h)]
    intro ⟨h1, h2⟩
    subst h1
    exact h2 (Or.inr h)

/-- C1: a URL is fetched at most once per crawl.  Conjuncts: (a) a `fetch`
call with an empty or already-visited URL returns `[]` with the entire
crawler state unchanged (`papertracer.py` lines 210-211); (b) a `fetch` call
with a non-empty URL leaves the URL in `visited_urls` (inserted at line 213,
before any network activity); (c) in any sequential crawl, at most one
`fetch` call on any URL `u` proceeds past the guard to network activity. -/
theorem fetch_dedup (cfg : CrawlerConfig) (o : Oracle) :
    (∀ st u, (u = "" ∨ u ∈ st.visitedUrls) →
      fetch_citations cfg o u st = ([], st)) ∧
    (∀ st u, u ≠ "" →
      u ∈ ((fetch_citations cfg o u st).2).visitedUrls) ∧
    (∀ st urls u, crawlAttempts cfg o st urls u ≤ 1) := by
  refine ⟨?_, ?_, ?_⟩
  · intro st u h
    unfold fetch_citations
    rw [if_pos h]
  · intro st u h
    rw [fetch_citations_visitedUrls]
    split
    next hg => exact hg.resolve_left h
    next => exact List.mem_cons_self _ _
  · intro st urls u
    induction urls generalizing st with
    | nil => exact Nat.zero_le 1
    | cons url rest ih =>
      unfold crawlAttempts
      by_cases hhit : url = u ∧ ¬(url = "" ∨ url ∈ st.visitedUrls)
      · rw [if_pos hhit]
        have hu : u ∈ ((fetch_citations cfg o url st).2).visitedUrls := by
          rw [fetch_citations_visitedUrls, if_neg hhit.2, hhit.1]
          exact List.mem_cons_self _ _
        rw [crawlAttempts_zero_of_visited cfg o rest u _ hu]
      · rw [if_neg hhit]
        simpa using ih _

/-- Witness for C1 at a concrete input: the URL `"u"` is already visited, so
the fetch short-circuits with an unchanged state. -/
theorem fetch_dedup_witness :
    fetch_citations {} { transport := fun _ _ => .failure "down" } "u"
        { visitedUrls := ["u"] } =
      ([], { visitedUrls := ["u"] }) :=
  (fetch_dedup {} { transport := fun _ _ => .failure "down" }).1
    { visitedUrls := ["u"] } "u" (Or.inr (List.mem_singleton.mpr rfl))

/-! ## What a fetch can return -/

theorem captchaBranch_result_cases {α : Type} (cfg : CrawlerConfig) (o : Oracle)
    (empty : α) (recur : Nat → Bool → CrawlerState → α × CrawlerState)
    (attempt : Nat) (b : Bool) (st : CrawlerState) :
    (∃ st', captchaBranch cfg o empty recur attempt b st = (empty, st')) ∨
    (∃ a' b' st', captchaBranch cfg o empty recur attempt b st = recur a' b' st') := by
  simp only [captchaBranch]
  split
  · right; exact ⟨_, _, _, rfl⟩
  · split
    · right; exact ⟨_, _, _, rfl⟩
    · split
      · left; exact ⟨_, rfl⟩
      · right; exact ⟨_, _, _, rfl⟩

theorem requestExnBranch_result_cases {α : Type} (cfg : CrawlerConfig) (o : Oracle)
    (empty : α) (recur : Nat → Bool → CrawlerState → α × CrawlerState)
    (attempt : Nat) (b : Bool) (msg : String) (st : CrawlerState) :
    (∃ st', requestExnBranch cfg o empty recur attempt b msg st = (empty, st')) ∨
    (∃ a' b' st', requestExnBranch cfg o empty recur attempt b msg st = recur a' b' st') := by
  simp only [requestExnBranch]
  split
  · right; exact ⟨_, _, _, rfl⟩
  · split
    · left; exact ⟨_, rfl⟩
    · right; exact ⟨_, _, _, rfl⟩

/-- Every exit of the retry loop is either the empty result or the
`process`ing of some normal page. -/
theorem retryLoop_result_cases {α : Type} (cfg : CrawlerConfig) (o : Oracle)
    (empty : α) (process : Page → CrawlerState → α × CrawlerState) (url : String) :
    ∀ fuel attempt b st,
      (∃ st', retryLoop cfg o empty process url fuel attempt b st = (empty, st')) ∨
      (∃ page st', retryLoop cfg o empty process url fuel attempt b st =
        process page st') := by
  intro fuel
  induction fuel with
  | zero => intro a b st; left; exact ⟨st, rfl⟩
  | succ fuel ih =>
    intro a b st
    rw [retryLoop]
    split
    · left; exact ⟨_, rfl⟩
    · split
      · split
        · left; exact ⟨_, rfl⟩
        · split
          · rcases captchaBranch_result_cases cfg o empty
                (fun a b s => retryLoop cfg o empty process url fuel a b s)
                a b _ with ⟨st', h⟩ | ⟨a', b', st', h⟩
            · left; exact ⟨st', h⟩
            · rw [h]; exact ih a' b' st'
          · right; exact ⟨_, _, rfl⟩
      · simp only []
        split
        · split
          · split
            · left; exact ⟨_, rfl⟩
            · rcases requestExnBranch_result_cases cfg o empty
                  (fun a b s => retryLoop cfg o empty process url fuel a b s)
                  a b _ _ with ⟨st', h⟩ | ⟨a', b', st', h⟩
              · left; exact ⟨st', h⟩
              · rw [h]; exact ih a' b' st'
          · rcases requestExnBranch_result_cases cfg o empty
                (fun a b s => retryLoop cfg o empty process url fuel a b s)
                a b _ _ with ⟨st', h⟩ | ⟨a', b', st', h⟩
            · left; exact ⟨st', h⟩
            · rw [h]; exact ih a' b' st'
        · split
          · rcases captchaBranch_result_cases cfg o empty
                (fun a b s => retryLoop cfg o empty process url fuel a b s)
                a b _ with ⟨st', h⟩ | ⟨a', b', st', h⟩
            · left; exact ⟨st', h⟩
            · rw [h]; exact ih a' b' st'
          · right; exact ⟨_, _, rfl⟩

/-- Non-empty, non-sentinel title. -/
def goodTitle (p : Paper) : Prop :=
  p.title ≠ "" ∧ p.title ≠ "Parse Error" ∧ p.title ≠ "Unknown Title"

theorem parse_paper_info_title_ne_empty (d : ResultDiv) :
    (parse_paper_info d).title ≠ "" := by
  unfold parse_paper_info
  split <;>
  · simp only []
    split
    · simp
    next h =>
      simp only []
      intro hc
      exact h (Or.inl hc)

theorem processCitationsPage_pairwise (cfg : CrawlerConfig) (page : Page)
    (st : CrawlerState) :
    ((processCitationsPage cfg page st).1).Pairwise paperGE :=
  sortPapersDesc_pairwise _

theorem processCitationsPage_good (cfg : CrawlerConfig) (page : Page)
    (st : CrawlerState) :
    ∀ p ∈ (processCitationsPage cfg page st).1, goodTitle p := by
  intro p hp
  have hp' : p ∈ ((page.divs.take cfg.maxPapersPerLevel).map parse_paper_info).filter validTitle :=
    sortPapersDesc_mem.1 hp
  rw [List.mem_filter] at hp'
  obtain ⟨hmem, hvalid⟩ := hp'
  rw [List.mem_map] at hmem
  obtain ⟨d, _, rfl⟩ := hmem
  unfold validTitle at hvalid
  rw [Bool.and_eq_true, bne_iff_ne, bne_iff_ne] at hvalid
  exact ⟨parse_paper_info_title_ne_empty d, hvalid.1, hvalid.2⟩

/-- The papers returned by `_fetch_citations` are in citation-count
descending order (the line 308 sort). -/
theorem fetch_citations_pairwise (cfg : CrawlerConfig) (o : Oracle)
    (url : String) (st : CrawlerState) :
    ((fetch_citations cfg o url st).1).Pairwise paperGE := by
  unfold fetch_citations
  split
  · simp
  · simp only []
    rcases retryLoop_result_cases cfg o [] (processCitationsPage cfg) url
        (retryFuel cfg) 0 false _ with ⟨st', h⟩ | ⟨page, st', h⟩
    · rw [h]; simp
    · rw [h]; exact processCitationsPage_pairwise cfg page st'

/-- The papers returned by `_fetch_citations` all carry a non-empty,
non-sentinel title (the line 304 filter plus the parse normalisation). -/
theorem fetch_citations_good (cfg : CrawlerConfig) (o : Oracle)
    (url : String) (st : CrawlerState) :
    ∀ p ∈ (fetch_citations cfg o url st).1, goodTitle p := by
  unfold fetch_citations
  split
  · simp
  · simp only []
    rcases retryLoop_result_cases cfg o [] (processCitationsPage cfg) url
        (retryFuel cfg) 0 false _ with ⟨st', h⟩ | ⟨page, st', h⟩
    · rw [h]; simp
    · rw [h]; exact processCitationsPage_good cfg page st'

/-! ## Tree-wide invariants of the builder -/

/-- Descending citation-count order between sibling nodes. -/
def nodeGE (a b : CitationNode) : Prop :=
  b.paper.citation_count ≤ a.paper.citation_count

/-- Per-node invariant: depth bounded by `max_depth`, no children at the
bound, children in citation-count descending order. -/
def nodeInv (cfg : CrawlerConfig) (m : CitationNode) : Prop :=
  m.depth ≤ cfg.maxDepth ∧ (m.depth = cfg.maxDepth → m.children = []) ∧
    m.children.Pairwise nodeGE

/-- Invariant package produced by a successful subtree build. -/
def subtreeSpec (cfg : CrawlerConfig) (p : Paper) (d : Nat)
    (node : CitationNode) : Prop :=
  node.paper = p ∧ node.depth = d ∧
    ∀ m ∈ node.allNodes, nodeInv cfg m ∧ (m = node ∨ goodTitle m.paper)

theorem buildChildrenLoop_paper_mem (cfg : CrawlerConfig)
    (recur : Paper → Nat → CrawlerState → Option CitationNode × CrawlerState)
    (hpaper : ∀ p d s node st', recur p d s = (some node, st') → node.paper = p) :
    ∀ papers depth st c, c ∈ (buildChildrenLoop cfg recur depth papers st).1 →
      c.paper ∈ papers := by
  intro papers
  induction papers with
  | nil => intro depth st c hc; simp [buildChildrenLoop] at hc
  | cons cp rest ih =>
    intro depth st c hc
    rw [buildChildrenLoop] at hc
    split at hc
    · rcases hr : recur cp (depth + 1) st with ⟨child?, st1⟩
      rw [hr] at hc
      cases child? with
      | some child =>
        simp only at hc
        rcases hbc : buildChildrenLoop cfg recur depth rest st1 with ⟨others, st2⟩
        rw [hbc] at hc
        simp only [List.mem_cons] at hc
        rcases hc with rfl | hc
        · rw [hpaper _ _ _ _ _ hr]
          exact List.mem_cons_self _ _
        · have := ih depth st1 c (by rw [hbc]; exact hc)
          exact List.mem_cons_of_mem _ this
      | none =>
        simp only at hc
        exact List.mem_cons_of_mem _ (ih depth st1 c hc)
    · rcases hbc : buildChildrenLoop cfg recur depth rest st with ⟨others, st2⟩
      rw [hbc] at hc
      simp only [List.mem_cons] at hc
      rcases hc with rfl | hc
      · simp
      · exact List.mem_cons_of_mem _ (ih depth st c (by rw [hbc]; exact hc))

theorem buildChildrenLoop_sorted (cfg : CrawlerConfig)
    (recur : Paper → Nat → CrawlerState → Option CitationNode × CrawlerState)
    (hpaper : ∀ p d s node st', recur p d s = (some node, st') → node.paper = p) :
    ∀ papers depth st, papers.Pairwise paperGE →
      ((buildChildrenLoop cfg recur depth papers st).1).Pairwise nodeGE := by
  intro papers
  induction papers with
  | nil => intro depth st _; simp [buildChildrenLoop]
  | cons cp rest ih =>
    intro depth st hsorted
    rw [List.pairwise_cons] at hsorted
    have hhead : ∀ c : CitationNode, c.paper ∈ rest →
        c.paper.citation_count ≤ cp.citation_count := by
      intro c hc
      exact hsorted.1 _ hc
    rw [buildChildrenLoop]
    split
    · rcases hr : recur cp (depth + 1) st with ⟨child?, st1⟩
      cases child? with
      | some child =>
        simp only
        rcases hbc : buildChildrenLoop cfg recur depth rest st1 with ⟨others, st2⟩
        simp only [List.pairwise_cons]
        constructor
        · intro b hb
          have hbp : b.paper ∈ rest :=
            buildChildrenLoop_paper_mem cfg recur hpaper rest depth st1 b
              (by rw [hbc]; exact hb)
          unfold nodeGE
          rw [hpaper _ _ _ _ _ hr]
          exact hhead b hbp
        · have := ih depth st1 hsorted.2
          rw [hbc] at this
          exact this
      | none =>
        simp only
        exact ih depth st1 hsorted.2
    · rcases hbc : buildChildrenLoop cfg recur depth rest st with ⟨others, st2⟩
      simp only [List.pairwise_cons]
      constructor
      · intro b hb
        have hbp : b.paper ∈ rest :=
          buildChildrenLoop_paper_mem cfg recur hpaper rest depth st b
            (by rw [hbc]; exact hb)
        unfold nodeGE
        simp only [CitationNode.paper_mk]
        exact hhead b hbp
      · have := ih depth st hsorted.2
        rw [hbc] at this
        exact this

theorem buildChildrenLoop_invariant (cfg : CrawlerConfig)
    (recur : Paper → Nat → CrawlerState → Option CitationNode × CrawlerState)
    (hrec : ∀ p d s node st', recur p d s = (some node, st') →
      subtreeSpec cfg p d node) :
    ∀ papers depth st, depth < cfg.maxDepth → (∀ p ∈ papers, goodTitle p) →
      ∀ c ∈ (buildChildrenLoop cfg recur depth papers st).1,
        c.depth = depth + 1 ∧
        ∀ m ∈ c.allNodes, nodeInv cfg m ∧ goodTitle m.paper := by
  intro papers
  induction papers with
  | nil => intro depth st _ _ c hc; simp [buildChildrenLoop] at hc
  | cons cp rest ih =>
    intro depth st hdepth hgood c hc
    have hgood_rest : ∀ p ∈ rest, goodTitle p := fun p hp =>
      hgood p (List.mem_cons_of_mem _ hp)
    rw [buildChildrenLoop] at hc
    split at hc
    · rcases hr : recur cp (depth + 1) st with ⟨child?, st1⟩
      rw [hr] at hc
      cases child? with
      | some child =>
        simp only at hc
        rcases hbc : buildChildrenLoop cfg recur depth rest st1 with ⟨others, st2⟩
        rw [hbc] at hc
        simp only [List.mem_cons] at hc
        rcases hc with rfl | hc
        · obtain ⟨hp, hd, hall⟩ := hrec _ _ _ _ _ hr
          refine ⟨hd, ?_⟩
          intro m hm
          obtain ⟨hinv, hm2⟩ := hall m hm
          refine ⟨hinv, ?_⟩
          rcases hm2 with rfl | hgt
          · rw [hp]; exact hgood _ (List.mem_cons_self _ _)
          · exact hgt
        · exact ih depth st1 hdepth hgood_rest c (by rw [hbc]; exact hc)
      | none =>
        simp only at hc
        exact ih depth st1 hdepth hgood_rest c hc
    · rcases hbc : buildChildrenLoop cfg recur depth rest st with ⟨others, st2⟩
      rw [hbc] at hc
      simp only [List.mem_cons] at hc
      rcases hc with rfl | hc
      · refine ⟨rfl, ?_⟩
        intro m hm
        rw [CitationNode.mem_allNodes_mk] at hm
        simp only [List.not_mem_nil, false_and, exists_false, or_false] at hm
        subst hm
        refine ⟨⟨by simpa using hdepth, ?_, by simp⟩, ?_⟩
        · intro _; simp
        · simp only [CitationNode.paper_mk]
          exact hgood _ (List.mem_cons_self _ _)
      · exact ih depth st hdepth hgood_rest c (by rw [hbc]; exact hc)

theorem buildSubtreeAux_invariant (cfg : CrawlerConfig) (o : Oracle) :
    ∀ fuel paper depth st node st',
      buildSubtreeAux cfg o fuel paper depth st = (some node, st') →
      subtreeSpec cfg paper depth node := by
  intro fuel
  induction fuel with
  | zero => intro paper depth st node st' h; simp [buildSubtreeAux] at h
  | succ fuel ih =>
    intro paper depth st node st' h
    rw [buildSubtreeAux] at h
    split at h
    · simp at h
    next hguard =>
      have hdepth : depth < cfg.maxDepth := Nat.lt_of_not_le hguard
      rcases hfc : fetch_citations cfg o paper.cited_by_url st with ⟨citing, st1⟩
      rw [hfc] at h
      simp only at h
      rcases hbc : buildChildrenLoop cfg
          (fun p d s => buildSubtreeAux cfg o fuel p d s) depth citing st1
        with ⟨children, st2⟩
      rw [hbc] at h
      simp only [Prod.mk.injEq, Option.some.injEq] at h
      obtain ⟨rfl, rfl⟩ := h
      have hrec : ∀ p d s node st'',
          buildSubtreeAux cfg o fuel p d s = (some node, st'') →
          subtreeSpec cfg p d node := fun p d s n s' hh => ih p d s n s' hh
      have hgood : ∀ p ∈ citing, goodTitle p := by
        have := fetch_citations_good cfg o paper.cited_by_url st
        rw [hfc] at this
        exact this
      have hsorted : citing.Pairwise paperGE := by
        have := fetch_citations_pairwise cfg o paper.cited_by_url st
        rw [hfc] at this
        exact this
      have hchild := buildChildrenLoop_invariant cfg _ hrec citing depth st1
        hdepth hgood
      rw [hbc] at hchild
      have hcsorted := buildChildrenLoop_sorted cfg _
        (fun p d s n s' hh => (ih p d s n s' hh).1) citing depth st1 hsorted
      rw [hbc] at hcsorted
      refine ⟨rfl, rfl, ?_⟩
      intro m hm
      rw [CitationNode.mem_allNodes_mk] at hm
      rcases hm with rfl | ⟨c, hcmem, hmc⟩
      · refine ⟨⟨le_of_lt hdepth, ?_, by simpa using hcsorted⟩, Or.inl rfl⟩
        intro hde
        simp only [CitationNode.depth_mk] at hde
        omega
      · obtain ⟨_, hall⟩ := hchild c hcmem
        obtain ⟨hinv, hgt⟩ := hall m hmc
        exact ⟨hinv, Or.inr hgt⟩

theorem buildRootNode_invariant (cfg : CrawlerConfig) (o : Oracle)
    (currentDepth : Nat) (rootPaper : Paper) (st : CrawlerState)
    (node : CitationNode) (st' : CrawlerState)
    (hdepth : currentDepth < cfg.maxDepth)
    (h : buildRootNode cfg o currentDepth rootPaper st = (some node, st')) :
    node.paper = rootPaper ∧ node.depth = currentDepth ∧
      ∀ m ∈ node.allNodes, nodeInv cfg m ∧ (m = node ∨ goodTitle m.paper) := by
  unfold buildRootNode at h
  rcases hfc : fetch_citations cfg o rootPaper.cited_by_url st with ⟨citing, st1⟩
  rw [hfc] at h
  simp only at h
  rcases hbc : buildChildrenLoop cfg (build_citation_subtree cfg o)
      currentDepth citing st1 with ⟨children, st2⟩
  rw [hbc] at h
  simp only [Prod.mk.injEq, Option.some.injEq] at h
  obtain ⟨rfl, rfl⟩ := h
  have hrec : ∀ p d s node st'',
      build_citation_subtree cfg o p d s = (some node, st'') →
      subtreeSpec cfg p d node := by
    intro p d s n s' hh
    exact buildSubtreeAux_invariant cfg o (cfg.maxDepth - d) p d s n s' hh
  have hgood : ∀ p ∈ citing, goodTitle p := by
    have := fetch_citations_good cfg o rootPaper.cited_by_url st
    rw [hfc] at this
    exact this
  have hsorted : citing.Pairwise paperGE := by
    have := fetch_citations_pairwise cfg o rootPaper.cited_by_url st
    rw [hfc] at this
    exact this
  have hchild := buildChildrenLoop_invariant cfg _ hrec citing currentDepth st1
    hdepth hgood
  rw [hbc] at hchild
  have hcsorted := buildChildrenLoop_sorted cfg _
    (fun p d s n s' hh => (hrec p d s n s' hh).1) citing currentDepth st1 hsorted
  rw [hbc] at hcsorted
  refine ⟨rfl, rfl, ?_⟩
  intro m hm
  rw [CitationNode.mem_allNodes_mk] at hm
  rcases hm with rfl | ⟨c, hcmem, hmc⟩
  · refine ⟨⟨le_of_lt hdepth, ?_, by simpa using hcsorted⟩, Or.inl rfl⟩
    intro hde
    simp only [CitationNode.depth_mk] at hde
    omega
  · obtain ⟨_, hall⟩ := hchild c hcmem
    obtain ⟨hinv, hgt⟩ := hall m hmc
    exact ⟨hinv, Or.inr hgt⟩

/-- Master invariant of a completed `build_citation_tree` call. -/
theorem build_citation_tree_invariant (cfg : CrawlerConfig) (o : Oracle)
    (startUrl : String) (st : CrawlerState) (root : CitationNode)
    (h : (build_citation_tree cfg o startUrl 0 st).1 = some root) :
    root.depth = 0 ∧
    (∀ m ∈ root.allNodes, nodeInv cfg m ∧ (m = root ∨ goodTitle m.paper)) ∧
    (strContains startUrl "cites=" = true →
      root.paper = rootPlaceholderPaper startUrl) := by
  have hpair : build_citation_tree cfg o startUrl 0 st =
      (some root, (build_citation_tree cfg o startUrl 0 st).2) := by
    rw [← h]
  rw [build_citation_tree] at hpair
  split at hpair
  · simp at hpair
  next hguard =>
    have hdepth : 0 < cfg.maxDepth := Nat.lt_of_not_le hguard
    rw [if_pos rfl] at hpair
    split at hpair
    next hcites =>
      obtain ⟨hp, hd, hall⟩ := buildRootNode_invariant cfg o 0
        (rootPlaceholderPaper startUrl) st root _ hdepth hpair
      exact ⟨hd, hall, fun _ => hp⟩
    next hcites =>
      rcases hgp : get_paper_from_scholar_url cfg o startUrl st with ⟨rp?, st1⟩
      rw [hgp] at hpair
      cases rp? with
      | none => simp at hpair
      | some rootPaper =>
        simp only at hpair
        obtain ⟨hp, hd, hall⟩ := buildRootNode_invariant cfg o 0 rootPaper st1
          root _ hdepth hpair
        refine ⟨hd, hall, ?_⟩
        intro hcontra
        exact absurd hcontra (by simpa using hcites)

/-! ## C6, C9, C3: claim theorems over built trees -/

/-- C6: for every tree returned by `build_citation_tree` with
`max_depth ≥ 1`, every node's depth is at most `max_depth`, and no node at
depth `max_depth` has children. -/
theorem build_tree_depth_bound (cfg : CrawlerConfig) (o : Oracle)
    (startUrl : String) (st : CrawlerState) (root : CitationNode)
    (_hmd : 1 ≤ cfg.maxDepth)
    (h : (build_citation_tree cfg o startUrl 0 st).1 = some root) :
    ∀ n ∈ root.allNodes, n.depth ≤ cfg.maxDepth ∧
      (n.depth = cfg.maxDepth → n.children = []) := by
  intro n hn
  obtain ⟨_, hall, _⟩ := build_citation_tree_invariant cfg o startUrl st root h
  obtain ⟨⟨h1, h2, _⟩, _⟩ := hall n hn
  exact ⟨h1, h2⟩

/-- C9: in every built tree, each node's children are in citation-count
descending order. -/
theorem build_tree_children_sorted (cfg : CrawlerConfig) (o : Oracle)
    (startUrl : String) (st : CrawlerState) (root : CitationNode)
    (h : (build_citation_tree cfg o startUrl 0 st).1 = some root) :
    ∀ n ∈ root.allNodes, ∀ i (hi : i + 1 < n.children.length),
      (n.children.get ⟨i + 1, hi⟩).paper.citation_count ≤
        (n.children.get ⟨i, Nat.lt_of_succ_lt hi⟩).paper.citation_count := by
  intro n hn i hi
  obtain ⟨_, hall, _⟩ := build_citation_tree_invariant cfg o startUrl st root h
  obtain ⟨⟨_, _, hpw⟩, _⟩ := hall n hn
  exact List.pairwise_iff_get.mp hpw ⟨i, Nat.lt_of_succ_lt hi⟩ ⟨i + 1, hi⟩
    (Nat.lt_succ_self i)

/-- C3 (amended): in every built tree, each node other than the root holds a
paper with a non-empty, non-sentinel title, and the synthetic root of a
`cites=` start URL carries the (non-sentinel) placeholder title; a root
resolved from a landing/search page, however, is not filtered and may carry
the `"Parse Error"` sentinel (see the counterexample). -/
theorem build_tree_titles (cfg : CrawlerConfig) (o : Oracle)
    (startUrl : String) (st : CrawlerState) (root : CitationNode)
    (h : (build_citation_tree cfg o startUrl 0 st).1 = some root) :
    (∀ n ∈ root.allNodes, n = root ∨
      (n.paper.title ≠ "" ∧ n.paper.title ≠ "Parse Error" ∧
        n.paper.title ≠ "Unknown Title")) ∧
    (strContains startUrl "cites=" = true →
      root.paper.title = "Root Paper (从引用页面开始)") := by
  obtain ⟨_, hall, hcites⟩ := build_citation_tree_invariant cfg o startUrl st root h
  constructor
  · intro n hn
    exact (hall n hn).2
  · intro hc
    rw [hcites hc]
    rfl

/-- C3 counterexample: resolving the root from a landing/search page whose
first result div has no title element produces a tree whose root paper is the
`"Parse Error"` sentinel — `_get_paper_from_scholar_url` applies no sentinel
filter (line 469) and the dataclass is truthy, so `build_citation_tree`
attaches it (lines 563-566). -/
def c3cfg : CrawlerConfig := { maxDepth := 2, useBrowserFallback := false }

def c3landingPage : Page := { text := "search results", divs := [{ titleText := none }] }

def c3oracle : Oracle := { transport := fun _ _ => .success c3landingPage }

theorem build_root_sentinel_counterexample :
    ((build_citation_tree c3cfg c3oracle
        "https://scholar.google.com/scholar?q=x" 0 {}).1.map
      (fun r => r.paper.title)) = some "Parse Error" := by
  rfl

/-! Concrete scenario shared by the C6/C9/C3 witnesses: a `cites=` start URL
whose listing yields two valid candidates (citation counts 7 and 3), every
other URL yielding a result-free page. -/

def w6cfg : CrawlerConfig :=
  { maxDepth := 2, maxPapersPerLevel := 3, useBrowserFallback := false }

def w6start : String := "https://scholar.google.com/scholar?cites=R"

def w6listingPage : Page :=
  { text := "results",
    divs := [{ titleText := some "Paper A",
               citedBy := some (7, "https://scholar.google.com/scholar?cites=A") },
             { titleText := some "Paper B",
               citedBy := some (3, "https://scholar.google.com/scholar?cites=B") }] }

def w6oracle : Oracle :=
  { transport := fun url _ =>
      if url = w6start then .success w6listingPage
      else .success { text := "results" } }

def w6root : CitationNode :=
  .mk (rootPlaceholderPaper w6start)
    [.mk { title := "Paper A", authors := "", year := "", citation_count := 7,
           url := "", cited_by_url := "https://scholar.google.com/scholar?cites=A",
           abstract := "" } [] 1,
     .mk { title := "Paper B", authors := "", year := "", citation_count := 3,
           url := "", cited_by_url := "https://scholar.google.com/scholar?cites=B",
           abstract := "" } [] 1] 0

theorem w6_build : (build_citation_tree w6cfg w6oracle w6start 0 {}).1 =
    some w6root := by
  rfl

/-- Witness for C6 at the concrete scenario, instantiated at the root node. -/
theorem build_tree_depth_bound_witness :
    w6root.depth ≤ w6cfg.maxDepth ∧
      (w6root.depth = w6cfg.maxDepth → w6root.children = []) :=
  build_tree_depth_bound w6cfg w6oracle w6start {} w6root (by decide) w6_build
    w6root (CitationNode.self_mem_allNodes w6root)

/-- Witness for C9 at the concrete scenario: the root's two children are in
descending citation-count order. -/
theorem build_tree_children_sorted_witness :
    (w6root.children.get ⟨1, by decide⟩).paper.citation_count ≤
      (w6root.children.get ⟨0, by decide⟩).paper.citation_count :=
  build_tree_children_sorted w6cfg w6oracle w6start {} w6root w6_build
    w6root (CitationNode.self_mem_allNodes w6root) 0 (by decide)

/-- Witness for C3 (amended) at the concrete scenario: the synthetic root
carries the placeholder title. -/
theorem build_tree_titles_witness :
    w6root.paper.title = "Root Paper (从引用页面开始)" :=
  (build_tree_titles w6cfg w6oracle w6start {} w6root w6_build).2 (by decide)

/-! ## C2: the maxDepth=2 / maxPapersPerLevel=3 scenario -/

def c2cfg : CrawlerConfig :=
  { maxDepth := 2, maxPapersPerLevel := 3, useBrowserFallback := false }

def c2start : String := "https://scholar.google.com/scholar?cites=S"

/-- The cited-by listing of the scenario: five valid candidates whose
citation counts in page order are `[50, 10, 80, 5, 30]`. -/
def c2listingPage : Page :=
  { text := "results",
    divs := [{ titleText := some "P50", citedBy := some (50, "cb50") },
             { titleText := some "P10", citedBy := some (10, "cb10") },
             { titleText := some "P80", citedBy := some (80, "cb80") },
             { titleText := some "P5", citedBy := some (5, "cb5") },
             { titleText := some "P30", citedBy := some (30, "cb30") }] }

def c2oracle : Oracle :=
  { transport := fun url _ =>
      if url = c2start then .success c2listingPage
      else .success { text := "results" } }

/-- C2 counterexample: in the spec's scenario the built root's children are
ordered `[80, 50, 10]`, not `[80, 50, 30]` — line 302 truncates to the first
`max_papers_per_level` divs in page order before the line 308 sort, so the
candidate with count 30 (fifth in page order) is discarded. -/
theorem scenario_truncate_before_sort_counterexample :
    ((build_citation_tree c2cfg c2oracle c2start 0 {}).1.map
      (fun r => r.children.map (fun c => c.paper.citation_count))) =
        some [80, 50, 10] ∧
    ([80, 50, 10] : List Int) ≠ [80, 50, 30] :=
  ⟨rfl, by decide⟩

/-- C2 (amended): with `maxDepth = 2`, `maxPapersPerLevel = 3`, a cited-by
start URL and a page of 5 valid candidates with citation counts
`[50, 10, 80, 5, 30]` in page order, the built root has exactly 3 children —
the first three page-order candidates sorted by citation count descending,
i.e. `[80, 50, 10]` — each at depth 1 with no children. -/
theorem scenario_truncate_before_sort :
    ((build_citation_tree c2cfg c2oracle c2start 0 {}).1.map
      (fun r => r.children.map
        (fun c => (c.paper.citation_count, c.depth, c.children.length)))) =
      some [(80, 1, 0), (50, 1, 0), (10, 1, 0)] := rfl

/-! ## C5: JSON round-trip -/

theorem paper_roundtrip (p : Paper) :
    paper_from_json (paper_to_dict p) = some p := rfl

theorem dict_to_children_map (cs : List CitationNode)
    (h : ∀ c ∈ cs, dict_to_node (node_to_dict c) = some c) :
    dict_to_children (cs.map node_to_dict) = some cs := by
  induction cs with
  | nil => simp [dict_to_children]
  | cons c rest ih =>
    rw [List.map_cons]
    rw [dict_to_children]
    rw [h c (List.mem_cons_self _ _)]
    rw [ih (fun c' hc' => h c' (List.mem_cons_of_mem _ hc'))]

/-- C5: saving a citation tree to JSON and loading it back yields the same
tree: `dict_to_node (node_to_dict t) = some t` for every tree `t`, every
`Paper` field, depth and children order included (the textual JSON encoding
in between round-trips the `Json` value). -/
theorem tree_json_roundtrip (t : CitationNode) :
    dict_to_node (node_to_dict t) = some t := by
  induction t using CitationNode.inductionOn with
  | h p cs d ih => ?_
  rw [node_to_dict_mk]
  rw [dict_to_node]
  have h1 : jsonLookup "paper"
      [("paper", paper_to_dict p), ("depth", Json.num (d : Int)),
       ("children", Json.arr (cs.map node_to_dict))] = some (paper_to_dict p) := rfl
  have h2 : jsonLookup "depth"
      [("paper", paper_to_dict p), ("depth", Json.num (d : Int)),
       ("children", Json.arr (cs.map node_to_dict))] = some (.num (d : Int)) := rfl
  have h3 : jsonLookup "children"
      [("paper", paper_to_dict p), ("depth", Json.num (d : Int)),
       ("children", Json.arr (cs.map node_to_dict))] =
      some (.arr (cs.map node_to_dict)) := rfl
  simp only [h1, h2, paper_roundtrip p, Int.ofNat_nonneg, if_true,
    Int.toNat_natCast]
  split
  next cs1 heq =>
    rw [h3] at heq
    injection heq with heq2
    injection heq2 with heq3
    subst heq3
    rw [dict_to_children_map cs ih]
  next heq =>
    rw [h3] at heq
    simp at heq

/-! ## C4: session snapshot restore -/

/-- C4: restoring a saved session snapshot re-seeds the orchestrator's
`visitedUrls`, `requestCount`, `consecutive429Count`, `last429Time` and
`proxyIndex` exactly; consequently (a) every URL visited at snapshot time
short-circuits a subsequent fetch to `([], state)` with no side effects, and
(b) the adaptive-delay scaling (`_adaptive_delay`'s multiplier logic) is
computed from the restored counters at the resume-time clock, not from a
reset baseline. -/
theorem session_restore_exact (cfg : CrawlerConfig) (o : Oracle)
    (s st' : CrawlerState) :
    (load_session_state (save_session_state s) st').visitedUrls = s.visitedUrls ∧
    (load_session_state (save_session_state s) st').requestCount = s.requestCount ∧
    (load_session_state (save_session_state s) st').consecutive429Count =
      s.consecutive429Count ∧
    (load_session_state (save_session_state s) st').last429Time = s.last429Time ∧
    (load_session_state (save_session_state s) st').proxyIndex = s.proxyIndex ∧
    (∀ u ∈ s.visitedUrls,
      fetch_citations cfg o u (load_session_state (save_session_state s) st') =
        ([], load_session_state (save_session_state s) st')) ∧
    (∀ b : ℚ,
      adaptiveScale
        { load_session_state (save_session_state s) st' with
            requestCount :=
              (load_session_state (save_session_state s) st').requestCount + 1 } b =
      adaptiveScale
        { s with requestCount := s.requestCount + 1, now := st'.now } b) := by
  refine ⟨rfl, rfl, rfl, rfl, rfl, ?_, fun b => rfl⟩
  intro u hu
  unfold fetch_citations
  have hu' : u ∈ (load_session_state (save_session_state s) st').visitedUrls := hu
  rw [if_pos (Or.inr hu')]

/-- Witness for C4: restoring a snapshot with `visitedUrls = ["a"]` into a
fresh state short-circuits a fetch of `"a"`. -/
theorem session_restore_exact_witness :
    fetch_citations {} { transport := fun _ _ => .failure "down" } "a"
        (load_session_state
          (save_session_state { visitedUrls := ["a"] }) { now := 5 }) =
      ([], load_session_state
        (save_session_state { visitedUrls := ["a"] }) { now := 5 }) :=
  ((session_restore_exact {} { transport := fun _ _ => .failure "down" }
      { visitedUrls := ["a"] } { now := 5 }).2.2.2.2.2.1) "a"
    (List.mem_singleton.mpr rfl)

/-! ## C7: skip mode never blocks on human input -/

theorem retryLoop_skip_captcha {α : Type} (cfg : CrawlerConfig) (o : Oracle)
    (empty : α) (process : Page → CrawlerState → α × CrawlerState) (url : String)
    (hskip : cfg.skip429Errors = true)
    (hT : ∀ i, ∃ p, o.transport url i = .success p ∧ is_captcha_page p = true) :
    ∀ fuel attempt st,
      (retryLoop cfg o empty process url fuel attempt false st).1 = empty ∧
      ((retryLoop cfg o empty process url fuel attempt false st).2).manualCalls =
        st.manualCalls ∧
      ((retryLoop cfg o empty process url fuel attempt false st).2).trace.length ≤
        st.trace.length + (cfg.maxCaptchaRetries - attempt) := by
  intro fuel
  induction fuel with
  | zero => intro attempt st; exact ⟨rfl, rfl, Nat.le_add_right _ _⟩
  | succ fuel ih =>
    intro attempt st
    rw [retryLoop]
    split
    · exact ⟨rfl, rfl, Nat.le_add_right _ _⟩
    next hatt =>
      have hatt' : attempt < cfg.maxCaptchaRetries := Nat.lt_of_not_le hatt
      rw [if_neg (by simp)]
      simp only []
      obtain ⟨p, hp, hcap⟩ := hT _
      rw [hp]
      simp only []
      rw [if_pos hcap]
      rw [captchaBranch]
      rw [if_pos hskip]
      simp only []
      obtain ⟨ih1, ih2, ih3⟩ := ih (attempt + 1) _
      refine ⟨ih1, ?_, ?_⟩
      · rw [ih2]
        split <;>
        · simp only [sleepFor_manualCalls, bumpRng_manualCalls,
            update_headers_manualCalls, recordRequest_manualCalls]
          split <;>
            simp only [update_headers_manualCalls, adaptive_delay_manualCalls]
      · refine le_trans ih3 ?_
        have htr : ∀ s' : CrawlerState,
            ((if 0 < attempt then
                sleepFor (uniformValue o 3 8 s') (bumpRng s')
              else s')).trace = s'.trace := by
          intro s'
          split <;> simp
        rw [htr]
        simp only [sleepFor_trace, bumpRng_trace, update_headers_trace,
          recordRequest_trace, apply_ite CrawlerState.trace,
          adaptive_delay_trace, ite_self, List.length_append,
          List.length_singleton]
        omega

/-- C7: with skip mode enabled and a transport whose every response for the
URL is a CHALLENGE-classified page, `fetch` returns the empty (exhausted)
result, the manual-intervention path (`_handle_manual_captcha`) is never
invoked, and at most `max_captcha_retries` network requests are issued. -/
theorem skip_mode_nonblocking (cfg : CrawlerConfig) (o : Oracle) (url : String)
    (st : CrawlerState) (hskip : cfg.skip429Errors = true)
    (hT : ∀ i, ∃ p, o.transport url i = .success p ∧ is_captcha_page p = true) :
    (fetch_citations cfg o url st).1 = [] ∧
    ((fetch_citations cfg o url st).2).manualCalls = st.manualCalls ∧
    ((fetch_citations cfg o url st).2).trace.length ≤
      st.trace.length + cfg.maxCaptchaRetries := by
  unfold fetch_citations
  split
  · exact ⟨rfl, rfl, Nat.le_add_right _ _⟩
  · simp only []
    obtain ⟨h1, h2, h3⟩ := retryLoop_skip_captcha cfg o [] (processCitationsPage cfg)
      url hskip hT (retryFuel cfg) 0
      { st with visitedUrls := url :: st.visitedUrls }
    exact ⟨h1, h2, by simpa using h3⟩

def c7cfg : CrawlerConfig :=
  { maxCaptchaRetries := 2, useBrowserFallback := false, skip429Errors := true }

def c7page : Page := { text := "Please verify you are human CAPTCHA" }

def c7oracle : Oracle := { transport := fun _ _ => .success c7page }

/-- Witness for C7: an always-challenging transport in skip mode yields the
empty result, no manual intervention and at most 2 requests. -/
theorem skip_mode_nonblocking_witness :
    (fetch_citations c7cfg c7oracle "u" {}).1 = [] ∧
    ((fetch_citations c7cfg c7oracle "u" {}).2).manualCalls =
      ({} : CrawlerState).manualCalls ∧
    ((fetch_citations c7cfg c7oracle "u" {}).2).trace.length ≤
      ({} : CrawlerState).trace.length + c7cfg.maxCaptchaRetries :=
  skip_mode_nonblocking c7cfg c7oracle "u" {} rfl
    (fun _ => ⟨c7page, rfl, by decide⟩)

/-! ## C8: 429 backoff and reset -/

@[simp] theorem handle_manual_captcha_snd_sleeps (o : Oracle) (url : String)
    (st : CrawlerState) :
    ((handle_manual_captcha o url st).2).sleeps = st.sleeps := rfl

@[simp] theorem handle_manual_captcha_snd_consecutive (o : Oracle) (url : String)
    (st : CrawlerState) :
    ((handle_manual_captcha o url st).2).consecutive429Count =
      st.consecutive429Count := rfl

theorem clamp01_nonneg (x : ℚ) : 0 ≤ clamp01 x := le_max_left _ _

theorem clamp01_le_one (x : ℚ) : clamp01 x ≤ 1 :=
  max_le zero_le_one (min_le_left _ _)

theorem uniformValue_lo (o : Oracle) (a b : ℚ) (st : CrawlerState)
    (h : a ≤ b) : a ≤ uniformValue o a b st := by
  unfold uniformValue
  have h1 := clamp01_nonneg (o.rand st.rngIdx)
  nlinarith

theorem uniformValue_hi (o : Oracle) (a b : ℚ) (st : CrawlerState)
    (h : a ≤ b) : uniformValue o a b st ≤ b := by
  unfold uniformValue
  have h1 := clamp01_le_one (o.rand st.rngIdx)
  have h2 := clamp01_nonneg (o.rand st.rngIdx)
  nlinarith

theorem handle429_tail_snd_sleeps (cfg : CrawlerConfig) (o : Oracle)
    (url : String) (X : CrawlerState) :
    ((if 3 ≤ X.consecutive429Count then
        if cfg.useBrowserFallback then handle_manual_captcha o url X
        else (none, X)
      else ((none, X) : Option Page × CrawlerState))).2.sleeps = X.sleeps := by
  split
  · split
    · simp
    · rfl
  · rfl

theorem handle429_tail_snd_consecutive (cfg : CrawlerConfig) (o : Oracle)
    (url : String) (X : CrawlerState) :
    ((if 3 ≤ X.consecutive429Count then
        if cfg.useBrowserFallback then handle_manual_captcha o url X
        else (none, X)
      else ((none, X) : Option Page × CrawlerState))).2.consecutive429Count =
      X.consecutive429Count := by
  split
  · split
    · simp
    · rfl
  · rfl

theorem handle_429_error_consecutive (cfg : CrawlerConfig) (o : Oracle)
    (url : String) (st : CrawlerState) :
    ((handle_429_error cfg o url st).2).consecutive429Count =
      st.consecutive429Count + 1 := by
  unfold handle_429_error
  split
  · simp
  · simp only []
    rw [handle429_tail_snd_consecutive]
    by_cases hpx : cfg.proxyList.isEmpty <;>
      simp [hpx, rotate_proxy_consecutive]

theorem handle_429_error_sleeps (cfg : CrawlerConfig) (o : Oracle)
    (url : String) (st : CrawlerState) (hskip : cfg.skip429Errors = false) :
    ∃ j : ℚ, 5 ≤ j ∧ j ≤ 15 ∧
      ((handle_429_error cfg o url st).2).sleeps =
        st.sleeps ++ [backoff429Delay (st.consecutive429Count + 1) j] := by
  refine ⟨uniformValue o 5 15 (update_headers
    (if cfg.proxyList.isEmpty then
      { st with last429Time := some st.now,
                consecutive429Count := st.consecutive429Count + 1 }
    else rotate_proxy cfg
      { st with last429Time := some st.now,
                consecutive429Count := st.consecutive429Count + 1 })),
    uniformValue_lo o 5 15 _ (by norm_num),
    uniformValue_hi o 5 15 _ (by norm_num), ?_⟩
  unfold handle_429_error
  rw [if_neg (by simp [hskip])]
  simp only []
  rw [handle429_tail_snd_sleeps]
  by_cases hpx : cfg.proxyList.isEmpty <;>
    simp [hpx, rotate_proxy_consecutive, rotate_proxy_sleeps]

/-- C8 (amended): for consecutive RATE_LIMITED responses the 429 handler
sleeps exactly `10 + 5·N + jitter` at consecutive count `N`, with the jitter
drawn from `[5, 15]` — so the deterministic component is strictly increasing
in `N` (by 5 per step, with no cap applied), while the jittered total may
decrease by up to 5 between steps (see the counterexample); and one fully
successful fetch resets the tracking immediately: `consecutive429Count`
becomes 0 and `last429Time` becomes `none`. -/
theorem backoff_and_reset (cfg : CrawlerConfig) (o : Oracle) (url : String)
    (st : CrawlerState) (hskip : cfg.skip429Errors = false) :
    (∃ j : ℚ, 5 ≤ j ∧ j ≤ 15 ∧
      ((handle_429_error cfg o url st).2).sleeps =
        st.sleeps ++ [backoff429Delay (st.consecutive429Count + 1) j]) ∧
    ((handle_429_error cfg o url st).2).consecutive429Count =
      st.consecutive429Count + 1 ∧
    (∀ n m : Nat, n < m → ∀ j : ℚ, backoff429Delay n j < backoff429Delay m j) ∧
    (∀ page st', ((processCitationsPage cfg page st').2).consecutive429Count = 0 ∧
      ((processCitationsPage cfg page st').2).last429Time = none) ∧
    (reset_429_tracking st).consecutive429Count = 0 ∧
    (reset_429_tracking st).last429Time = none := by
  refine ⟨handle_429_error_sleeps cfg o url st hskip,
    handle_429_error_consecutive cfg o url st, ?_, ?_, rfl, rfl⟩
  · intro n m hnm j
    unfold backoff429Delay
    have : (n : ℚ) < (m : ℚ) := by exact_mod_cast hnm
    linarith
  · intro page st'
    exact ⟨rfl, rfl⟩

def c8cfg : CrawlerConfig := { useBrowserFallback := false }

def c8oracle : Oracle :=
  { transport := fun _ _ => .failure "HTTP 429", rand := fun i => if i = 1 then 1 else 0 }

/-- C8 counterexample: two consecutive 429s produce the recorded backoff
delays `[30, 25]` — the jitter (`uniform(5,15)`, here 15 then 5) outweighs
the `+5` progressive step, so the computed delay is not non-decreasing in the
consecutive-429 count (and no cap is applied by the handler). -/
theorem backoff_monotone_counterexample :
    ((handle_429_error c8cfg c8oracle "u"
        ((handle_429_error c8cfg c8oracle "u" {}).2)).2).sleeps = [30, 25] ∧
    ¬ ((30 : ℚ) ≤ 25) := by
  constructor
  · simp only [handle_429_error, uniformValue, bumpRng, sleepFor,
      update_headers, rotate_proxy, clamp01, backoff429Delay, c8cfg, c8oracle,
      handle_manual_captcha]
    norm_num
  · norm_num

/-- Witness for C8 (amended) at a concrete input. -/
theorem backoff_and_reset_witness :
    (∃ j : ℚ, 5 ≤ j ∧ j ≤ 15 ∧
      ((handle_429_error c8cfg c8oracle "u" {}).2).sleeps =
        ({} : CrawlerState).sleeps ++
          [backoff429Delay (({} : CrawlerState).consecutive429Count + 1) j]) ∧
    ((handle_429_error c8cfg c8oracle "u" {}).2).consecutive429Count =
      ({} : CrawlerState).consecutive429Count + 1 ∧
    (∀ n m : Nat, n < m → ∀ j : ℚ, backoff429Delay n j < backoff429Delay m j) ∧
    (∀ page st', ((processCitationsPage c8cfg page st').2).consecutive429Count = 0 ∧
      ((processCitationsPage c8cfg page st').2).last429Time = none) ∧
    (reset_429_tracking ({} : CrawlerState)).consecutive429Count = 0 ∧
    (reset_429_tracking ({} : CrawlerState)).last429Time = none :=
  backoff_and_reset c8cfg c8oracle "u" {} rfl

/-! ## C10: recovered manual-verification content is discarded -/

@[simp] theorem sleepFor_last429 (d : ℚ) (st : CrawlerState) :
    (sleepFor d st).last429Time = st.last429Time := rfl

@[simp] theorem bumpRng_last429 (st : CrawlerState) :
    (bumpRng st).last429Time = st.last429Time := rfl

@[simp] theorem adaptive_delay_last429 (cfg : CrawlerConfig) (o : Oracle)
    (st : CrawlerState) :
    (adaptive_delay cfg o st).last429Time = st.last429Time := by
  simp [adaptive_delay]

theorem handle_429_error_manual_succeeds (cfg : CrawlerConfig) (o : Oracle)
    (url : String) (st : CrawlerState) (page : Page)
    (hskip : cfg.skip429Errors = false) (hbf : cfg.useBrowserFallback = true)
    (hcons : 2 ≤ st.consecutive429Count)
    (hman : o.manualResult url st.manualCalls = some page) :
    (handle_429_error cfg o url st).1 = some page ∧
    ((handle_429_error cfg o url st).2).manualCalls = st.manualCalls + 1 := by
  unfold handle_429_error
  rw [if_neg (by simp [hskip])]
  simp only []
  by_cases hpx : cfg.proxyList.isEmpty <;>
  · simp only [hpx, if_true, if_false]
    rw [if_pos (by simp [rotate_proxy_consecutive]; omega)]
    rw [if_pos hbf]
    unfold handle_manual_captcha
    constructor
    · simpa using hman
    · simp

@[simp] theorem recordRequest_consecutive (url : String) (st : CrawlerState) :
    (recordRequest url st).consecutive429Count = st.consecutive429Count := rfl

theorem retryLoop_429_manual {α : Type} (cfg : CrawlerConfig) (o : Oracle)
    (empty : α) (process : Page → CrawlerState → α × CrawlerState)
    (url msg : String) (page : Page)
    (hskip : cfg.skip429Errors = false) (hbf : cfg.useBrowserFallback = true)
    (hretries : 0 < cfg.maxCaptchaRetries) :
    ∀ fuel st,
      o.transport url st.trace.length = .failure msg →
      is429Message msg = true →
      2 ≤ st.consecutive429Count →
      o.manualResult url st.manualCalls = some page →
      (retryLoop cfg o empty process url (fuel + 1) 0 false st).1 = empty ∧
      ((retryLoop cfg o empty process url (fuel + 1) 0 false st).2).manualCalls =
        st.manualCalls + 1 := by
  intro fuel st hT h429 hcons hman
  rw [retryLoop]
  rw [if_neg (Nat.not_le.mpr hretries)]
  rw [if_neg (by simp)]
  simp only []
  set X1 := adaptive_delay cfg o st with hX1
  set X2 := if X1.requestCount % 5 = 0 then update_headers X1 else X1 with hX2
  have hX2t : X2.trace = st.trace := by
    rw [hX2]
    split <;> simp [hX1]
  have hX2c : X2.consecutive429Count = st.consecutive429Count := by
    rw [hX2]
    split <;> simp [hX1]
  have hX2m : X2.manualCalls = st.manualCalls := by
    rw [hX2]
    split <;> simp [hX1]
  rw [hX2t, hT]
  simp only []
  rw [if_pos h429]
  have hcons3 : 2 ≤ (recordRequest url X2).consecutive429Count := by
    rw [recordRequest_consecutive, hX2c]
    exact hcons
  have hman3 : o.manualResult url (recordRequest url X2).manualCalls =
      some page := by
    rw [recordRequest_manualCalls, hX2m]
    exact hman
  obtain ⟨hm1, hm2⟩ := handle_429_error_manual_succeeds cfg o url
    (recordRequest url X2) page hskip hbf hcons3 hman3
  split
  next val st4 heq =>
    refine ⟨rfl, ?_⟩
    have h2 := congrArg Prod.snd heq
    simp only at h2
    rw [← h2, hm2, recordRequest_manualCalls, hX2m]
  next st4 heq =>
    have h1 := congrArg Prod.fst heq
    simp only at h1
    rw [hm1] at h1
    simp at h1

/-- C10: when a fetch attempt raises a 429 request error and the 429
handler's manual verification succeeds (returns page content), the retry
loop is nevertheless exited through its final `return`: `_fetch_citations`
returns the empty list (line 335's `break` reaches lines 381-382) and
`_get_paper_from_scholar_url` returns nothing (lines 492, 538-539) — the
recovered page content (whatever candidates it holds) is discarded and never
parsed, with the manual-intervention path invoked exactly once. -/
theorem manual_recovery_discarded (cfg : CrawlerConfig) (o : Oracle)
    (url msg : String) (st : CrawlerState) (page : Page)
    (hskip : cfg.skip429Errors = false) (hbf : cfg.useBrowserFallback = true)
    (hretries : 0 < cfg.maxCaptchaRetries)
    (hcons : 2 ≤ st.consecutive429Count)
    (hfresh : ¬(url = "" ∨ url ∈ st.visitedUrls))
    (hT : o.transport url st.trace.length = .failure msg)
    (h429 : is429Message msg = true)
    (hman : o.manualResult url st.manualCalls = some page) :
    (fetch_citations cfg o url st).1 = [] ∧
    ((fetch_citations cfg o url st).2).manualCalls = st.manualCalls + 1 ∧
    (get_paper_from_scholar_url cfg o url st).1 = none ∧
    ((get_paper_from_scholar_url cfg o url st).2).manualCalls =
      st.manualCalls + 1 := by
  have hloop1 := retryLoop_429_manual cfg o [] (processCitationsPage cfg) url
    msg page hskip hbf hretries (2 * cfg.maxCaptchaRetries)
    { st with visitedUrls := url :: st.visitedUrls } hT h429 hcons hman
  have hloop2 := retryLoop_429_manual cfg o none processScholarPage url
    msg page hskip hbf hretries (2 * cfg.maxCaptchaRetries) st hT h429 hcons hman
  constructor
  · unfold fetch_citations
    rw [if_neg hfresh]
    exact hloop1.1
  constructor
  · unfold fetch_citations
    rw [if_neg hfresh]
    exact hloop1.2
  · exact hloop2

def c10cfg : CrawlerConfig := { maxCaptchaRetries := 3 }

def c10page : Page :=
  { text := "results", divs := [{ titleText := some "Recovered Paper" }] }

def c10oracle : Oracle :=
  { transport := fun _ _ => .failure "429 Client Error: Too Many Requests",
    manualResult := fun _ _ => some c10page }

def c10st : CrawlerState := { consecutive429Count := 2 }

/-- Witness for C10: a concrete 429-failing transport with a successful
manual verification yields an empty fetch and a discarded page. -/
theorem manual_recovery_discarded_witness :
    (fetch_citations c10cfg c10oracle "u" c10st).1 = [] ∧
    ((fetch_citations c10cfg c10oracle "u" c10st).2).manualCalls =
      c10st.manualCalls + 1 ∧
    (get_paper_from_scholar_url c10cfg c10oracle "u" c10st).1 = none ∧
    ((get_paper_from_scholar_url c10cfg c10oracle "u" c10st).2).manualCalls =
      c10st.manualCalls + 1 :=
  manual_recovery_discarded c10cfg c10oracle "u"
    "429 Client Error: Too Many Requests" c10st c10page rfl rfl
    (by decide) (by decide) (by decide) rfl (by decide) rfl
